import Mathlib

/-!
Shallow embedding of the simulation core of the drone-swarm repository
(fire propagation grid, RF path-loss model, battery/payload energy model,
DETM transmission gate, distributed observer, and the drone agent search
step), together with theorems settling the specification claims.

Modelling conventions:
- Python floats are modelled as exact rationals (`ℚ`) in modules whose
  arithmetic uses only field operations, `min`, `max` and comparisons
  (energy_model.py, the search-step heading update); modules that apply
  transcendental functions (`math.exp`, `math.sqrt`, `math.log10`,
  `math.cos`, `math.sin`) are modelled over `ℝ`
  (detm_controller.py, channel_model.py, fire_simulation.py,
  distributed_observer.py).
- Python `int` is modelled as `ℤ` (or `ℕ` for values that are provably
  non-negative counters in the source).
- Mutating methods are modelled as functions returning the new object,
  paired with the Python return value.
- `dict` fields keyed by drone id are modelled as association lists in
  insertion order (Python dicts preserve insertion order).
- `np.random.RandomState(seed)` streams are modelled as explicit draw
  streams `ℕ → ℝ` threaded with a cursor; the process-global `random`
  module (which the repository never seeds) is modelled as an ambient
  draw that is *not* part of any seeded construction input.
-/

namespace AeroSim

/-- constants.py `clamp`: `max(min_val, min(max_val, value))`. -/
def clamp (value minVal maxVal : ℚ) : ℚ := max minVal (min maxVal value)

/-- constants.py `BATTERY_CAPACITY_MAH = 5000`. -/
def BATTERY_CAPACITY_MAH : ℚ := 5000

/-- constants.py `BATTERY_VOLTAGE_V = 14.8`. -/
def BATTERY_VOLTAGE_V : ℚ := 148/10

/-- constants.py `MAX_HOVER_TIME_S = 1200`. -/
def MAX_HOVER_TIME_S : ℚ := 1200

/-- constants.py `ENERGY_DRAIN_PER_METER = 0.08`. -/
def ENERGY_DRAIN_PER_METER : ℚ := 8/100

/-- constants.py `ENERGY_DRAIN_HOVER_PER_SEC = 0.0001`. -/
def ENERGY_DRAIN_HOVER_PER_SEC : ℚ := 1/10000

/-- constants.py `BATTERY_MIN_PERCENT = 20.0`. -/
def BATTERY_MIN_PERCENT : ℚ := 20

/-- constants.py `MAX_PAYLOAD_UNITS = 40`. -/
def MAX_PAYLOAD_UNITS : ℚ := 40

/-- constants.py `PAYLOAD_DRAIN_PER_SUPPRESSION = 1.0`. -/
def PAYLOAD_DRAIN_PER_SUPPRESSION : ℚ := 1

/-- energy_model.py `BatteryModel` attribute state. -/
structure BatteryModel where
  capacity_mah : ℚ
  nominal_voltage_v : ℚ
  total_energy_wh : ℚ
  remaining_energy_wh : ℚ
  nominal_drain_rate : ℚ
  deriving Repr

/-- energy_model.py `BatteryModel.__init__`. -/
def BatteryModel.init (capacity_mah voltage_v : ℚ) : BatteryModel :=
  { capacity_mah := capacity_mah
    nominal_voltage_v := voltage_v
    total_energy_wh := capacity_mah / 1000 * voltage_v
    remaining_energy_wh := capacity_mah / 1000 * voltage_v
    nominal_drain_rate := 1 / (MAX_HOVER_TIME_S * 3600) }

/-- energy_model.py `BatteryState` dataclass. -/
structure BatteryState where
  battery_percent : ℚ
  battery_mah_remaining : ℚ
  battery_energy_wh : ℚ
  voltage_v : ℚ
  time_to_empty_s : ℚ
  critical : Bool
  depleted : Bool
  deriving Repr

/-- energy_model.py `BatteryModel.get_state`.  The `nominal_drain_rate > 0`
guard is kept; its false branch returns `float('inf')` in the source, which
is unreachable because the rate is the positive literal
`1/(MAX_HOVER_TIME_S*3600)`; that dead branch is modelled as 0. -/
def BatteryModel.get_state (b : BatteryModel) : BatteryState :=
  let battery_percent := clamp (b.remaining_energy_wh / b.total_energy_wh * 100) 0 100
  let time_to_empty :=
    if 0 < b.nominal_drain_rate then
      b.remaining_energy_wh / (b.total_energy_wh * b.nominal_drain_rate)
    else 0
  { battery_percent := battery_percent
    battery_mah_remaining := b.remaining_energy_wh / b.nominal_voltage_v * 1000
    battery_energy_wh := b.remaining_energy_wh
    voltage_v := b.nominal_voltage_v
    time_to_empty_s := time_to_empty
    critical := decide (battery_percent < BATTERY_MIN_PERCENT)
    depleted := decide (battery_percent ≤ 0) }

/-- energy_model.py `BatteryModel.drain_flight`; returns (energy consumed,
updated battery). -/
def BatteryModel.drain_flight (b : BatteryModel)
    (distance_m aggressiveness : ℚ) : ℚ × BatteryModel :=
  let energy_consumed := distance_m * ENERGY_DRAIN_PER_METER * aggressiveness
  (energy_consumed,
    { b with remaining_energy_wh := max 0 (b.remaining_energy_wh - energy_consumed) })

/-- energy_model.py `BatteryModel.drain_hover`. -/
def BatteryModel.drain_hover (b : BatteryModel) (time_s : ℚ) : ℚ × BatteryModel :=
  let energy_consumed := time_s * ENERGY_DRAIN_HOVER_PER_SEC
  (energy_consumed,
    { b with remaining_energy_wh := max 0 (b.remaining_energy_wh - energy_consumed) })

/-- energy_model.py `BatteryModel.charge_percent`. -/
def BatteryModel.charge_percent (b : BatteryModel) (percent : ℚ) : BatteryModel :=
  { b with remaining_energy_wh := clamp (percent / 100 * b.total_energy_wh) 0 b.total_energy_wh }

/-- energy_model.py `BatteryModel.is_critical`. -/
def BatteryModel.is_critical (b : BatteryModel) : Bool := b.get_state.critical

/-- energy_model.py `PayloadModel` attribute state. -/
structure PayloadModel where
  max_payload_units : ℚ
  payload_units : ℚ
  deriving Repr

/-- energy_model.py `PayloadModel.__init__`. -/
def PayloadModel.init (max_payload_units : ℚ) : PayloadModel :=
  { max_payload_units := max_payload_units, payload_units := max_payload_units }

/-- energy_model.py `PayloadState` dataclass. -/
structure PayloadState where
  payload_units : ℚ
  max_payload_units : ℚ
  payload_percent : ℚ
  empty : Bool
  deriving Repr

/-- energy_model.py `PayloadModel.get_state`. -/
def PayloadModel.get_state (p : PayloadModel) : PayloadState :=
  { payload_units := p.payload_units
    max_payload_units := p.max_payload_units
    payload_percent := clamp (p.payload_units / p.max_payload_units * 100) 0 100
    empty := decide (p.payload_units ≤ 0) }

/-- energy_model.py `PayloadModel.consume`. -/
def PayloadModel.consume (p : PayloadModel) (units : ℚ) : ℚ × PayloadModel :=
  let consumed := min units p.payload_units
  (consumed, { p with payload_units := max 0 (p.payload_units - units) })

/-- energy_model.py `PayloadModel.refill`. -/
def PayloadModel.refill (p : PayloadModel) : PayloadModel :=
  { p with payload_units := p.max_payload_units }

/-- energy_model.py `PayloadModel.is_empty`. -/
def PayloadModel.is_empty (p : PayloadModel) : Bool := decide (p.payload_units ≤ 0)

/-- energy_model.py `EnergyManager` (combined battery + payload). -/
structure EnergyManager where
  battery : BatteryModel
  payload : PayloadModel
  deriving Repr

/-- energy_model.py `EnergyManager.__init__`. -/
def EnergyManager.init (battery_capacity_mah battery_voltage_v max_payload_units : ℚ) :
    EnergyManager :=
  { battery := BatteryModel.init battery_capacity_mah battery_voltage_v
    payload := PayloadModel.init max_payload_units }

/-- energy_model.py `EnergyManager.should_rtl_override`. -/
def EnergyManager.should_rtl_override (em : EnergyManager) : Bool × String :=
  if em.battery.is_critical then (true, "battery_critical")
  else if em.payload.is_empty then (true, "payload_empty")
  else (false, "none")

/-- energy_model.py `EnergyManager.update_flight`. -/
def EnergyManager.update_flight (em : EnergyManager)
    (distance_m hover_time_s aggressiveness : ℚ) : ℚ × EnergyManager :=
  let r1 := em.battery.drain_flight distance_m aggressiveness
  let r2 := r1.2.drain_hover hover_time_s
  (r1.1 + r2.1, { em with battery := r2.2 })

/-- energy_model.py `EnergyManager.update_suppression`. -/
def EnergyManager.update_suppression (em : EnergyManager) (strength : ℚ) :
    (ℚ × ℚ) × EnergyManager :=
  let r := em.payload.consume (PAYLOAD_DRAIN_PER_SUPPRESSION * strength)
  ((r.1, 0), { em with payload := r.2 })

/-- energy_model.py `EnergyManager.dock`: charge battery to 100 %, refill payload. -/
def EnergyManager.dock (em : EnergyManager) : EnergyManager :=
  { battery := em.battery.charge_percent 100
    payload := em.payload.refill }

/-- Battery operations appearing in claim C6 (energy_model.py public API
used by the drone agent): flight drain, hover drain, docking. -/
inductive BatteryOp where
  | flight (distance_m aggressiveness : ℚ)
  | hover (time_s : ℚ)
  | dockOp
  deriving Repr

/-- Argument domains of the operations as used by the repository
(distances, times and aggressiveness multipliers are non-negative). -/
def BatteryOp.valid : BatteryOp → Prop
  | .flight d a => 0 ≤ d ∧ 0 ≤ a
  | .hover t => 0 ≤ t
  | .dockOp => True

/-- Apply one battery operation to an `EnergyManager`. -/
def EnergyManager.applyOp (em : EnergyManager) : BatteryOp → EnergyManager
  | .flight d a => { em with battery := (em.battery.drain_flight d a).2 }
  | .hover t => { em with battery := (em.battery.drain_hover t).2 }
  | .dockOp => em.dock

/-- Apply a sequence of battery operations in order. -/
def EnergyManager.applyOps (em : EnergyManager) (ops : List BatteryOp) : EnergyManager :=
  ops.foldl EnergyManager.applyOp em

/-! ### detm_controller.py -/

/-- constants.py `DETM_ETA0 = 0.5`. -/
noncomputable def DETM_ETA0 : ℝ := 1/2

/-- constants.py `DETM_LAMBDA = 0.1`. -/
noncomputable def DETM_LAMBDA : ℝ := 1/10

/-- constants.py `DETM_MIN_ETA = 0.01`. -/
noncomputable def DETM_MIN_ETA : ℝ := 1/100

/-- The 6-tuple `(x, y, z, vx, vy, vz)` handled by the DETM controller. -/
structure Vec6 where
  x : ℝ
  y : ℝ
  z : ℝ
  vx : ℝ
  vy : ℝ
  vz : ℝ

/-- detm_controller.py `DETMController._calculate_error_l2` on two 6-tuples
(the length-mismatch guard of the source is dead code for 6-tuples). -/
noncomputable def errL2 (c l : Vec6) : ℝ :=
  Real.sqrt ((c.x - l.x)^2 + (c.y - l.y)^2 + (c.z - l.z)^2 +
    (c.vx - l.vx)^2 + (c.vy - l.vy)^2 + (c.vz - l.vz)^2)

/-- detm_controller.py `DETMController._calculate_error_linf` on two 6-tuples. -/
noncomputable def errLinf (c l : Vec6) : ℝ :=
  max (max (max (max (max |c.x - l.x| |c.y - l.y|) |c.z - l.z|) |c.vx - l.vx|)
    |c.vy - l.vy|) |c.vz - l.vz|

/-- detm_controller.py `DetmState` dataclass. -/
structure DetmState where
  drone_id : ℕ
  eta0 : ℝ
  lambda_decay : ℝ
  norm_type : String
  last_transmitted_state : Vec6
  last_transmitted_time_us : ℤ
  current_eta : ℝ
  eta_age_ticks : ℕ
  transmissions_total : ℕ
  triggers_fired : ℕ
  triggers_suppressed : ℕ

/-- Python `dict` assignment `d[k] = v` on an association list: replace the
binding in place when the key is present, append otherwise (Python dicts keep
insertion order). -/
def alistSet {α : Type} (l : List (ℕ × α)) (k : ℕ) (v : α) : List (ℕ × α) :=
  if (l.lookup k).isSome then
    l.map (fun p => if p.1 = k then (k, v) else p)
  else l ++ [(k, v)]

/-- detm_controller.py `DETMController` state: `states` dict. -/
structure DETMController where
  states : List (ℕ × DetmState)

/-- detm_controller.py `DETMController.__init__`. -/
def DETMController.init : DETMController := ⟨[]⟩

/-- detm_controller.py `DETMController.register_drone`. -/
def DETMController.register_drone (c : DETMController) (drone_id : ℕ)
    (eta0 lambda_decay : ℝ) (norm_type : String) : DETMController :=
  ⟨alistSet c.states drone_id
    { drone_id := drone_id
      eta0 := eta0
      lambda_decay := lambda_decay
      norm_type := norm_type.toLower
      last_transmitted_state := ⟨0, 0, 0, 0, 0, 0⟩
      last_transmitted_time_us := 0
      current_eta := eta0
      eta_age_ticks := 0
      transmissions_total := 0
      triggers_fired := 0
      triggers_suppressed := 0 }⟩

/-- detm_controller.py `DETMController.should_transmit`; returns the Python
return value `(should_transmit, current_eta)` paired with the updated
controller (the source mutates `current_eta` and the trigger counters). -/
noncomputable def DETMController.should_transmit (c : DETMController) (drone_id : ℕ)
    (time_us : ℤ) (x y z vx vy vz : ℝ) : (Bool × ℝ) × DETMController :=
  match c.states.lookup drone_id with
  | none => ((true, DETM_ETA0), c)
  | some state =>
    let current_state : Vec6 := ⟨x, y, z, vx, vy, vz⟩
    let delta_t_s : ℝ := ((time_us - state.last_transmitted_time_us : ℤ) : ℝ) / 1000000
    let current_eta := max (state.eta0 * Real.exp (-state.lambda_decay * delta_t_s))
      DETM_MIN_ETA
    let error :=
      if state.norm_type = "l2" then errL2 current_state state.last_transmitted_state
      else errLinf current_state state.last_transmitted_state
    let should_tx := decide (current_eta < error)
    let state2 := { state with
      current_eta := current_eta
      triggers_fired := state.triggers_fired + (if should_tx then 1 else 0)
      triggers_suppressed := state.triggers_suppressed + (if should_tx then 0 else 1) }
    ((should_tx, current_eta), ⟨alistSet c.states drone_id state2⟩)

/-- detm_controller.py `DETMController.record_transmission`. -/
def DETMController.record_transmission (c : DETMController) (drone_id : ℕ)
    (time_us : ℤ) (x y z vx vy vz : ℝ) : DETMController :=
  match c.states.lookup drone_id with
  | none => c
  | some state =>
    let state2 := { state with
      last_transmitted_state := Vec6.mk x y z vx vy vz
      last_transmitted_time_us := time_us
      transmissions_total := state.transmissions_total + 1 }
    ⟨alistSet c.states drone_id state2⟩

/-! ### channel_model.py (path loss) -/

/-- constants.py `REFERENCE_DISTANCE_M = 1.0`. -/
noncomputable def REFERENCE_DISTANCE_M : ℝ := 1

/-- constants.py `PATH_LOSS_EXPONENT = 3.0`. -/
noncomputable def PATH_LOSS_EXPONENT : ℝ := 3

/-- constants.py `REFERENCE_RSSI_DBM = -40`. -/
noncomputable def REFERENCE_RSSI_DBM : ℝ := -40

/-- channel_model.py `PathLossModel` attributes. -/
structure PathLossModel where
  reference_distance_m : ℝ
  path_loss_exponent : ℝ
  reference_rssi_dbm : ℝ

/-- channel_model.py `PathLossModel.calculate_path_loss`:
`0` for `d ≤ 0`, else `10·n·log₁₀(d/d₀)`. -/
noncomputable def PathLossModel.calculate_path_loss (m : PathLossModel)
    (distance_m : ℝ) : ℝ :=
  if distance_m ≤ 0 then 0
  else 10 * m.path_loss_exponent * Real.logb 10 (distance_m / m.reference_distance_m)

/-! ### drone_node.py `_step_search` and the process-global random module -/

/-- Python float modulo `a % b` for positive `b` (result in `[0, b)`). -/
def qfmod (a b : ℚ) : ℚ := a - b * ⌊a / b⌋

/-- The part of the drone agent state read and written by
drone_node.py `DroneNode._step_search`. -/
structure SearchDroneState where
  state_ticks : ℕ
  heading_deg : ℚ
  deriving Repr

/-- drone_node.py `DroneNode._step_search`: when `state_ticks > 100` the
heading is perturbed by `heading_delta = random.uniform(-30, 30)` and wrapped
modulo 360.  The draw comes from the process-global `random` module, which is
never seeded anywhere in the repository (no `random.seed` call exists), so it
is an ambient input independent of every seed provided at construction; the
embedding therefore takes the draw as an explicit extra argument that is not a
function of any constructor seed. -/
def stepSearch (d : SearchDroneState) (globalUniformDraw : ℚ) : SearchDroneState :=
  if 100 < d.state_ticks then
    { d with heading_deg := qfmod (d.heading_deg + globalUniformDraw) 360 }
  else d

/-- Two co-simulated runs that were constructed with the same seed and have
processed the same external commands, about to execute the search step of
drone_node.py with a drone in `SEARCH` at `state_ticks = 101`: the shared
seed determines the seeded components (modelled by carrying the seed through
unchanged), while the process-global `random` module contributes the ambient
draw of `_step_search`. -/
def searchRunSnapshot (seed : ℕ) (drone : SearchDroneState)
    (globalUniformDraw : ℚ) : ℕ × SearchDroneState :=
  (seed, stepSearch drone globalUniformDraw)

/-! ### distributed_observer.py -/

/-- distributed_observer.py `NeighborEstimate` dataclass. -/
structure NeighborEstimate where
  neighbor_id : ℕ
  estimated_x : ℝ
  estimated_y : ℝ
  estimated_z : ℝ
  estimated_vx : ℝ
  estimated_vy : ℝ
  estimated_vz : ℝ
  estimate_time_us : ℤ
  estimate_age_ticks : ℕ
  estimate_confidence : ℝ
  velocity_model_stale : Bool

/-- distributed_observer.py `LocalizationObserverState` dataclass. -/
structure LocalizationObserverState where
  drone_id : ℕ
  max_latency_ticks : ℕ
  constant_velocity_timeout_ticks : ℕ
  confidence_decay_rate : ℝ
  neighbors : List (ℕ × NeighborEstimate)

/-- distributed_observer.py `DistributedObserver` state.  The constructor
arguments are in milliseconds; the tick counts are `int(ms / 10)` (all call
sites pass non-negative multiples of 10, for which Python truncation equals
natural division). -/
structure DistributedObserver where
  local_states : List (ℕ × LocalizationObserverState)
  max_latency_ticks : ℕ
  constant_velocity_timeout_ticks : ℕ
  confidence_decay_factor : ℝ

/-- distributed_observer.py `DistributedObserver.__init__`. -/
def DistributedObserver.init (max_latency_ms constant_velocity_timeout_ms : ℕ)
    (confidence_decay_factor : ℝ) : DistributedObserver :=
  { local_states := []
    max_latency_ticks := max_latency_ms / 10
    constant_velocity_timeout_ticks := constant_velocity_timeout_ms / 10
    confidence_decay_factor := confidence_decay_factor }

/-- distributed_observer.py `register_drone`: fresh observer state with one
zero-initialised estimate per listed neighbor (confidence 0, stale). -/
def DistributedObserver.register_drone (o : DistributedObserver) (drone_id : ℕ)
    (neighbors : List ℕ) : DistributedObserver :=
  let base : LocalizationObserverState :=
    { drone_id := drone_id
      max_latency_ticks := o.max_latency_ticks
      constant_velocity_timeout_ticks := o.constant_velocity_timeout_ticks
      confidence_decay_rate := o.confidence_decay_factor
      neighbors := [] }
  let zeroEstimate : ℕ → NeighborEstimate := fun nid =>
    { neighbor_id := nid
      estimated_x := 0, estimated_y := 0, estimated_z := 0
      estimated_vx := 0, estimated_vy := 0, estimated_vz := 0
      estimate_time_us := 0
      estimate_age_ticks := 0
      estimate_confidence := 0
      velocity_model_stale := true }
  let filled := neighbors.foldl (fun st nid =>
    { st with neighbors := alistSet st.neighbors nid (zeroEstimate nid) }) base
  { o with local_states := alistSet o.local_states drone_id filled }

/-- distributed_observer.py `update_neighbor` (the DETM-message ingest):
unknown observer is a no-op; an unknown neighbor is auto-registered at
confidence 1; otherwise the estimate is overwritten and refreshed. -/
def DistributedObserver.update_neighbor (o : DistributedObserver)
    (observer_drone_id neighbor_id : ℕ) (time_us : ℤ)
    (x y z vx vy vz : ℝ) : DistributedObserver :=
  match o.local_states.lookup observer_drone_id with
  | none => o
  | some observer =>
    match observer.neighbors.lookup neighbor_id with
    | none =>
      let fresh : NeighborEstimate :=
        { neighbor_id := neighbor_id
          estimated_x := x, estimated_y := y, estimated_z := z
          estimated_vx := vx, estimated_vy := vy, estimated_vz := vz
          estimate_time_us := time_us
          estimate_age_ticks := 0
          estimate_confidence := 1
          velocity_model_stale := false }
      let observer2 := { observer with
        neighbors := alistSet observer.neighbors neighbor_id fresh }
      { o with local_states := alistSet o.local_states observer_drone_id observer2 }
    | some estimate =>
      let estimate2 := { estimate with
        estimated_x := x, estimated_y := y, estimated_z := z
        estimated_vx := vx, estimated_vy := vy, estimated_vz := vz
        estimate_time_us := time_us
        estimate_age_ticks := 0
        estimate_confidence := 1
        velocity_model_stale := false }
      let observer2 := { observer with
        neighbors := alistSet observer.neighbors neighbor_id estimate2 }
      { o with local_states := alistSet o.local_states observer_drone_id observer2 }

/-- distributed_observer.py `predict_neighbor_state`: ages the estimate,
recomputes the linearly decaying confidence (`1 − 0.8·min(age/100, 1)`),
applies the latency and constant-velocity timeouts, and extrapolates the
position; returns the Python value (`None` for unknown ids) paired with the
updated observer (the source mutates the stored estimate). -/
noncomputable def DistributedObserver.predict_neighbor_state (o : DistributedObserver)
    (observer_drone_id neighbor_id : ℕ) (current_time_us : ℤ) :
    Option (ℝ × ℝ × ℝ × ℝ) × DistributedObserver :=
  match o.local_states.lookup observer_drone_id with
  | none => (none, o)
  | some observer =>
    match observer.neighbors.lookup neighbor_id with
    | none => (none, o)
    | some estimate =>
      let age2 := estimate.estimate_age_ticks + 1
      let age_ratio : ℝ := min ((age2 : ℝ) / 100) 1
      let confidence2 : ℝ := 1 - (4/5) * age_ratio
      let stale2 := estimate.velocity_model_stale || decide (observer.max_latency_ticks < age2)
      let zeroVel := decide (observer.constant_velocity_timeout_ticks < age2)
      let vx2 := if zeroVel then 0 else estimate.estimated_vx
      let vy2 := if zeroVel then 0 else estimate.estimated_vy
      let vz2 := if zeroVel then 0 else estimate.estimated_vz
      let time_delta_s : ℝ := ((current_time_us - estimate.estimate_time_us : ℤ) : ℝ) / 1000000
      let predicted_x := estimate.estimated_x + vx2 * time_delta_s
      let predicted_y := estimate.estimated_y + vy2 * time_delta_s
      let predicted_z := estimate.estimated_z + vz2 * time_delta_s
      let estimate2 := { estimate with
        estimate_age_ticks := age2
        estimate_confidence := confidence2
        velocity_model_stale := stale2
        estimated_vx := vx2, estimated_vy := vy2, estimated_vz := vz2 }
      let observer2 := { observer with
        neighbors := alistSet observer.neighbors neighbor_id estimate2 }
      (some (predicted_x, predicted_y, predicted_z, confidence2),
        { o with local_states := alistSet o.local_states observer_drone_id observer2 })

/-- distributed_observer.py `get_separation_to_neighbor`: Euclidean 3D
distance between the observer position and the prediction; `None` when the
prediction is unavailable. -/
noncomputable def DistributedObserver.get_separation_to_neighbor (o : DistributedObserver)
    (observer_drone_id neighbor_id : ℕ) (current_time_us : ℤ)
    (drone_x drone_y drone_z : ℝ) : Option ℝ × DistributedObserver :=
  let r := o.predict_neighbor_state observer_drone_id neighbor_id current_time_us
  match r.1 with
  | none => (none, r.2)
  | some p =>
    let dx := p.1 - drone_x
    let dy := p.2.1 - drone_y
    let dz := p.2.2.1 - drone_z
    (some (Real.sqrt (dx^2 + dy^2 + dz^2)), r.2)

/-- distributed_observer.py `check_collision_risk`: unknown observer returns
the empty list; otherwise every tracked neighbor is checked via
`get_separation_to_neighbor` (which mutates the stored estimates, threaded
through the fold in Python dict iteration order). -/
noncomputable def DistributedObserver.check_collision_risk (o : DistributedObserver)
    (observer_drone_id : ℕ) (current_time_us : ℤ)
    (drone_x drone_y drone_z : ℝ) (min_separation_m : ℝ) :
    List (ℕ × ℝ) × DistributedObserver :=
  match o.local_states.lookup observer_drone_id with
  | none => ([], o)
  | some observer =>
    (observer.neighbors.map Prod.fst).foldl (fun acc nid =>
      let r := acc.2.get_separation_to_neighbor observer_drone_id nid current_time_us
        drone_x drone_y drone_z
      match r.1 with
      | some separation =>
        if separation < min_separation_m then (acc.1 ++ [(nid, separation)], r.2)
        else (acc.1, r.2)
      | none => (acc.1, r.2)) ([], o)

/-! ### fire_simulation.py -/

/-- constants.py `FIRE_SPREAD_RATE_BASE_MPM = 500.0`. -/
noncomputable def FIRE_SPREAD_RATE_BASE_MPM : ℝ := 500

/-- constants.py `FIRE_SPREAD_RATE_WIND_SCALE = 2.0`. -/
noncomputable def FIRE_SPREAD_RATE_WIND_SCALE : ℝ := 2

/-- constants.py `WIND_SPEED_MS = 5.0`. -/
noncomputable def WIND_SPEED_MS : ℝ := 5

/-- constants.py `WIND_DIRECTION_DEG = 45`. -/
noncomputable def WIND_DIRECTION_DEG : ℝ := 45

/-- constants.py `FUEL_DENSITY_FACTOR = 1.0`. -/
noncomputable def FUEL_DENSITY_FACTOR : ℝ := 1

/-- constants.py `SUPPRESSION_EFFECTIVENESS = 0.9`. -/
noncomputable def SUPPRESSION_EFFECTIVENESS : ℝ := 9/10

/-- constants.py `INTENSITY_DECAY_FACTOR = 0.95`. -/
noncomputable def INTENSITY_DECAY_FACTOR : ℝ := 19/20

/-- constants.py `FIRE_INTENSITY_IGNITION = 0.5`. -/
noncomputable def FIRE_INTENSITY_IGNITION : ℝ := 1/2

/-- constants.py `SIM_TICK_PERIOD_S = 0.01`. -/
noncomputable def SIM_TICK_PERIOD_S : ℝ := 1/100

/-- constants.py `SIM_TICK_PERIOD_US = int(SIM_TICK_PERIOD_S * 1e6) = 10000`;
fire_simulation.py `step` advances `time_us` by this amount. -/
def SIM_TICK_PERIOD_US : ℤ := 10000

/-- Python float modulo over `ℝ` (used for `direction_deg % 360.0`). -/
noncomputable def rfmod (a b : ℝ) : ℝ := a - b * ⌊a / b⌋

/-- fire_simulation.py `CellState` enum. -/
inductive CellState where
  | no_fire
  | burning
  | burned
  | suppressed
  deriving DecidableEq, Repr

/-- fire_simulation.py `FireCell` dataclass. -/
structure FireCell where
  x : ℤ
  y : ℤ
  state : CellState
  intensity : ℝ
  fuel_density : ℝ
  temperature_k : ℝ
  ignition_time_us : ℤ
  suppression_age_ticks : ℤ

/-- fire_simulation.py `FireCell.is_burning`. -/
def FireCell.is_burning (c : FireCell) : Prop :=
  c.state = CellState.burning ∧ 0 < c.intensity

noncomputable instance (c : FireCell) : Decidable c.is_burning := by
  unfold FireCell.is_burning
  infer_instance

/-- fire_simulation.py `WindModel` attributes. -/
structure WindModel where
  wind_speed_ms : ℝ
  wind_direction_deg : ℝ

/-- fire_simulation.py `WindModel.__init__` (`direction % 360.0`). -/
noncomputable def WindModel.init (speed_ms direction_deg : ℝ) : WindModel :=
  ⟨speed_ms, rfmod direction_deg 360⟩

/-- fire_simulation.py `WindModel.get_wind_vector`:
`angle = radians(90 − direction)`, components `speed·(cos, sin)` of it. -/
noncomputable def WindModel.get_wind_vector (w : WindModel) : ℝ × ℝ :=
  let angle_rad := (90 - w.wind_direction_deg) * (Real.pi / 180)
  (w.wind_speed_ms * Real.cos angle_rad, w.wind_speed_ms * Real.sin angle_rad)

/-- fire_simulation.py `WindModel.set_wind`. -/
noncomputable def WindModel.set_wind (w : WindModel) (speed_ms direction_deg : ℝ) :
    WindModel :=
  { w with wind_speed_ms := max 0 speed_ms
           wind_direction_deg := rfmod direction_deg 360 }

/-- fire_simulation.py `FireSimulation._in_bounds`:
`0 ≤ x < width ∧ 0 ≤ y < height`. -/
def inBoundsP (width height : ℕ) (x y : ℤ) : Prop :=
  0 ≤ x ∧ x < (width : ℤ) ∧ 0 ≤ y ∧ y < (height : ℤ)

instance (width height : ℕ) (x y : ℤ) : Decidable (inBoundsP width height x y) := by
  unfold inBoundsP
  infer_instance

/-- fire_simulation.py `FireSimulation` state.  The grid `self.grid[y, x]`
is the total function `cells`, meaningful on in-bounds indices; the
`np.random.RandomState(seed)` draw sequence of `rng.rand()` is the stream
`rngStream` consumed at position `rngCursor`. -/
structure FireSimulation where
  width : ℕ
  height : ℕ
  cell_size_m : ℝ
  rngStream : ℕ → ℝ
  rngCursor : ℕ
  cells : ℤ → ℤ → FireCell
  wind_model : WindModel
  ticks : ℕ
  time_us : ℤ
  total_burned_cells : ℕ

/-- Point update of the grid function at `grid[y, x]`. -/
def updCell (cells : ℤ → ℤ → FireCell) (y x : ℤ) (c : FireCell) :
    ℤ → ℤ → FireCell :=
  fun y2 x2 => if y2 = y ∧ x2 = x then c else cells y2 x2

/-- fire_simulation.py `FireSimulation.__init__`: every cell starts
`NO_FIRE`, intensity 0, fuel `FUEL_DENSITY_FACTOR`, 293 K; wind is the
default `WindModel()`; counters at zero. -/
noncomputable def FireSimulation.init (width height : ℕ) (cell_size_m : ℝ)
    (rngStream : ℕ → ℝ) : FireSimulation :=
  { width := width
    height := height
    cell_size_m := cell_size_m
    rngStream := rngStream
    rngCursor := 0
    cells := fun y x =>
      { x := x, y := y, state := CellState.no_fire, intensity := 0
        fuel_density := FUEL_DENSITY_FACTOR, temperature_k := 293
        ignition_time_us := 0, suppression_age_ticks := 0 }
    wind_model := WindModel.init WIND_SPEED_MS WIND_DIRECTION_DEG
    ticks := 0
    time_us := 0
    total_burned_cells := 0 }

/-- fire_simulation.py `FireSimulation._in_bounds` as a method. -/
def FireSimulation.in_bounds (s : FireSimulation) (x y : ℤ) : Prop :=
  inBoundsP s.width s.height x y

instance (s : FireSimulation) (x y : ℤ) : Decidable (s.in_bounds x y) := by
  unfold FireSimulation.in_bounds
  infer_instance

/-- fire_simulation.py `FireSimulation.ignite`: out of bounds returns
`False`; otherwise forces `BURNING`, intensity `max(intensity,
FIRE_INTENSITY_IGNITION)`, stamps the ignition time and sets 500 K. -/
noncomputable def FireSimulation.ignite (s : FireSimulation) (x y : ℤ)
    (intensity : ℝ) : Bool × FireSimulation :=
  if s.in_bounds x y then
    let cell := s.cells y x
    let cell2 := { cell with
      state := CellState.burning
      intensity := max intensity FIRE_INTENSITY_IGNITION
      ignition_time_us := s.time_us
      temperature_k := 500 }
    (true, { s with cells := updCell s.cells y x cell2 })
  else (false, s)

/-- fire_simulation.py `FireSimulation.suppress`: out of bounds returns 0;
otherwise `reduction = intensity·strength·SUPPRESSION_EFFECTIVENESS`, the
intensity drops by `reduction` clamped at 0, the suppression age resets, and
a cell whose intensity reached 0 becomes `SUPPRESSED` at 300 K. -/
noncomputable def FireSimulation.suppress (s : FireSimulation) (x y : ℤ)
    (strength : ℝ) : ℝ × FireSimulation :=
  if s.in_bounds x y then
    let cell := s.cells y x
    let reduction := cell.intensity * strength * SUPPRESSION_EFFECTIVENESS
    let intensity2 := max 0 (cell.intensity - reduction)
    let cell2 := { cell with intensity := intensity2, suppression_age_ticks := 0 }
    let cell3 :=
      if intensity2 ≤ 0 then
        { cell2 with state := CellState.suppressed, temperature_k := 300 }
      else cell2
    (reduction, { s with cells := updCell s.cells y x cell3 })
  else (0, s)

/-- fire_simulation.py `FireSimulation.get_cell`. -/
def FireSimulation.get_cell (s : FireSimulation) (x y : ℤ) : Option FireCell :=
  if s.in_bounds x y then some (s.cells y x) else none

/-- fire_simulation.py `FireSimulation._calculate_spread_distance`. -/
noncomputable def calculateSpreadDistance (cell : FireCell)
    (wind_vx wind_vy cell_size_m : ℝ) : ℝ :=
  let spread_mpm := FIRE_SPREAD_RATE_BASE_MPM * cell.fuel_density
  let wind_magnitude := Real.sqrt (wind_vx ^ 2 + wind_vy ^ 2)
  let wind_factor := 1 + wind_magnitude / WIND_SPEED_MS * FIRE_SPREAD_RATE_WIND_SCALE
  let spread_mpm2 := spread_mpm * wind_factor
  let spread_m_per_step := spread_mpm2 / 60 * SIM_TICK_PERIOD_S
  let spread_cells := spread_m_per_step / cell_size_m
  max 1 spread_cells

/-- The inclusive integer range `[lo, hi]` (Python `range(lo, hi+1)`). -/
def intRange (lo hi : ℤ) : List ℤ :=
  (List.range (hi + 1 - lo).toNat).map (fun i => lo + (i : ℤ))

/-- fire_simulation.py `FireSimulation._get_neighbors_within_distance`:
offsets scanned over the square of side `2·(int(distance)+1)+1`, the centre
skipped, out-of-bounds skipped, kept when the Euclidean offset length is at
most `distance`; `dy` is the outer loop as in the source. -/
noncomputable def neighborsWithinDistance (width height : ℕ) (x y : ℤ)
    (distance : ℝ) : List (ℤ × ℤ × ℝ) :=
  let search_radius : ℤ := ⌊distance⌋ + 1
  (intRange (-search_radius) search_radius).flatMap (fun dy =>
    (intRange (-search_radius) search_radius).filterMap (fun dx =>
      if dx = 0 ∧ dy = 0 then none
      else
        let nx := x + dx
        let ny := y + dy
        if inBoundsP width height nx ny then
          let dist := Real.sqrt ((dx : ℝ) ^ 2 + (dy : ℝ) ^ 2)
          if dist ≤ distance then some (nx, ny, dist) else none
        else none))

/-- The in-place update of one burning cell in fire_simulation.py `step`
(decay, temperature, fuel drain, burn-out test); second component is `true`
when the cell transitioned to `BURNED` (`fuel ≤ 0 or intensity ≤ 0.001`). -/
noncomputable def stepBurnCell (cell : FireCell) : FireCell × Bool :=
  let intensity2 := cell.intensity * INTENSITY_DECAY_FACTOR
  let temperature2 := 300 + intensity2 * 700
  let fuel2 := max 0 (cell.fuel_density - intensity2 * (1/100))
  let burnedCell := { cell with
    state := CellState.burned
    intensity := 0
    temperature_k := temperature2
    fuel_density := fuel2 }
  let aliveCell := { cell with
    intensity := intensity2
    temperature_k := temperature2
    fuel_density := fuel2 }
  if fuel2 ≤ 0 ∨ intensity2 ≤ 1/1000 then (burnedCell, true)
  else (aliveCell, false)

/-- Accumulator of the burning-cell sweep in fire_simulation.py `step`:
the (mutated in place) grid, the RNG cursor, the `cells_to_ignite` queue and
the count of cells that burned out in this sweep. -/
structure SweepAcc where
  cells : ℤ → ℤ → FireCell
  cursor : ℕ
  queue : List (ℤ × ℤ × ℝ)
  burnedOut : ℕ

/-- The neighbor loop of fire_simulation.py `step` for one burning cell:
cells that are not `NO_FIRE` or have no fuel are skipped before any draw;
otherwise one `rng.rand()` draw is consumed and compared with the ignition
probability, queueing `(nx, ny, intensity·distance_factor·0.5)` on success. -/
noncomputable def scanNeighbors (cells : ℤ → ℤ → FireCell) (cell2 : FireCell)
    (spread : ℝ) (stream : ℕ → ℝ) (nbs : List (ℤ × ℤ × ℝ))
    (cursor : ℕ) (queue : List (ℤ × ℤ × ℝ)) : ℕ × List (ℤ × ℤ × ℝ) :=
  nbs.foldl (fun acc nb =>
    let neighbor := cells nb.2.1 nb.1
    if neighbor.state ≠ CellState.no_fire ∨ neighbor.fuel_density ≤ 0 then acc
    else
      let distance_factor := 1/5 + 4/5 * (1 - nb.2.2 / (spread + 1/10))
      let ignition_prob :=
        min 1 (cell2.intensity * distance_factor * neighbor.fuel_density * (1/2))
      if stream acc.1 < ignition_prob then
        (acc.1 + 1, acc.2 ++ [(nb.1, nb.2.1, cell2.intensity * distance_factor * (1/2))])
      else (acc.1 + 1, acc.2)) (cursor, queue)

/-- One iteration of the row-major burning-cell sweep of
fire_simulation.py `step` at grid index `(y, x)`. -/
noncomputable def sweepCell (width height : ℕ) (cell_size_m wind_vx wind_vy : ℝ)
    (stream : ℕ → ℝ) (acc : SweepAcc) (yx : ℤ × ℤ) : SweepAcc :=
  let cell := acc.cells yx.1 yx.2
  if cell.is_burning then
    let r := stepBurnCell cell
    let cells2 := updCell acc.cells yx.1 yx.2 r.1
    if r.2 then
      { acc with cells := cells2, burnedOut := acc.burnedOut + 1 }
    else
      let spread := calculateSpreadDistance r.1 wind_vx wind_vy cell_size_m
      let nbs := neighborsWithinDistance width height yx.2 yx.1 spread
      let sq := scanNeighbors cells2 r.1 spread stream nbs acc.cursor acc.queue
      { acc with cells := cells2, cursor := sq.1, queue := sq.2 }
  else acc

/-- Row-major index list `[(y, x)]` of the double loop
`for y in range(height): for x in range(width)`. -/
def gridIndices (width height : ℕ) : List (ℤ × ℤ) :=
  (List.range height).flatMap (fun y =>
    (List.range width).map (fun x => ((y : ℤ), (x : ℤ))))

/-- fire_simulation.py `FireSimulation.step`: advance the clock, sweep the
burning cells (mutating the grid in place and collecting the ignition
queue), apply the queued ignitions through `ignite`, then age the
suppression counters of every grid cell; returns
`(newly_ignited, suppressed_cells)` with the updated simulation
(`suppressed_cells` is the constant 0 of the source). -/
noncomputable def FireSimulation.step (s : FireSimulation) :
    (ℕ × ℕ) × FireSimulation :=
  let wv := s.wind_model.get_wind_vector
  let acc0 : SweepAcc := ⟨s.cells, s.rngCursor, [], 0⟩
  let acc := (gridIndices s.width s.height).foldl
    (sweepCell s.width s.height s.cell_size_m wv.1 wv.2 s.rngStream) acc0
  let s2 : FireSimulation := { s with
    cells := acc.cells
    rngCursor := acc.cursor
    ticks := s.ticks + 1
    time_us := s.time_us + SIM_TICK_PERIOD_US
    total_burned_cells := s.total_burned_cells + acc.burnedOut }
  let applied := acc.queue.foldl (fun (p : ℕ × FireSimulation) item =>
    let g := p.2.ignite item.1 item.2.1 item.2.2
    (p.1 + (if g.1 then 1 else 0), g.2)) (0, s2)
  let agedCells : ℤ → ℤ → FireCell := fun y x =>
    let c := applied.2.cells y x
    if inBoundsP s.width s.height x y ∧ 0 ≤ c.suppression_age_ticks then
      { c with suppression_age_ticks := c.suppression_age_ticks + 1 }
    else c
  ((applied.1, 0), { applied.2 with cells := agedCells })

/-- Claim C2 cell invariant: a cell with exhausted fuel and intensity below
the burn-out threshold `0.001` must be `BURNED`. -/
def cellFuelInvariant (c : FireCell) : Prop :=
  c.fuel_density = 0 → c.intensity < 1/1000 → c.state = CellState.burned

/-- The C2 invariant over the whole grid. -/
def gridFuelInvariant (s : FireSimulation) : Prop :=
  ∀ y x : ℤ, cellFuelInvariant (s.cells y x)

/-- Grid states reachable from a freshly constructed `FireSimulation` by any
interleaving of `ignite`, `suppress` and `step` (claim C2); `ignite`
intensities and `suppress` strengths are restricted to the documented `[0, 1]`
argument range. -/
inductive Reachable (width height : ℕ) (cell_size_m : ℝ) (stream : ℕ → ℝ) :
    FireSimulation → Prop where
  | init :
      Reachable width height cell_size_m stream
        (FireSimulation.init width height cell_size_m stream)
  | ignite (s : FireSimulation) (x y : ℤ) (i : ℝ) (h0 : 0 ≤ i) (h1 : i ≤ 1) :
      Reachable width height cell_size_m stream s →
      Reachable width height cell_size_m stream (s.ignite x y i).2
  | suppress (s : FireSimulation) (x y : ℤ) (str : ℝ) (h0 : 0 ≤ str) (h1 : str ≤ 1) :
      Reachable width height cell_size_m stream s →
      Reachable width height cell_size_m stream (s.suppress x y str).2
  | step (s : FireSimulation) :
      Reachable width height cell_size_m stream s →
      Reachable width height cell_size_m stream s.step.2

/-- Grid states reachable using only `ignite` and `step` (no suppression),
with arbitrary real ignite intensities. -/
inductive ReachableIS (width height : ℕ) (cell_size_m : ℝ) (stream : ℕ → ℝ) :
    FireSimulation → Prop where
  | init :
      ReachableIS width height cell_size_m stream
        (FireSimulation.init width height cell_size_m stream)
  | ignite (s : FireSimulation) (x y : ℤ) (i : ℝ) :
      ReachableIS width height cell_size_m stream s →
      ReachableIS width height cell_size_m stream (s.ignite x y i).2
  | step (s : FireSimulation) :
      ReachableIS width height cell_size_m stream s →
      ReachableIS width height cell_size_m stream s.step.2

/-- The all-zero draw stream used for the concrete C2 run (a 1×1 grid never
consumes a draw, so any stream gives the same run). -/
noncomputable def zeroStream : ℕ → ℝ := fun _ => 0

/-- One external `ignite(0, 0, 1.0)` command followed by one `step()` on the
1×1 counterexample grid. -/
noncomputable def igniteStep (s : FireSimulation) : FireSimulation :=
  ((s.ignite 0 0 1).2).step.2

/-- The C2 counterexample run: a 1×1 grid, `k` rounds of
`ignite(0,0,1.0); step()`. -/
noncomputable def traceC2 : ℕ → FireSimulation
  | 0 => FireSimulation.init 1 1 10 zeroStream
  | k + 1 => igniteStep (traceC2 k)

/-- The C2 counterexample final state: after 106 ignite/step rounds the cell
has exhausted its fuel and is `BURNED`; one `suppress(0, 0, 0.5)` then marks
it `SUPPRESSED` while fuel is 0 and intensity is 0. -/
noncomputable def traceC2Final : FireSimulation :=
  ((traceC2 106).suppress 0 0 (1/2)).2

/-- Normal form of the 1×1 counterexample simulation: the initial grid with
cell `(0, 0)` replaced, plus the clock and burn counters. -/
noncomputable def sim1 (cell : FireCell) (ticks : ℕ) (time_us : ℤ)
    (burned : ℕ) : FireSimulation :=
  { width := 1
    height := 1
    cell_size_m := 10
    rngStream := zeroStream
    rngCursor := 0
    cells := updCell (FireSimulation.init 1 1 10 zeroStream).cells 0 0 cell
    wind_model := WindModel.init WIND_SPEED_MS WIND_DIRECTION_DEG
    ticks := ticks
    time_us := time_us
    total_burned_cells := burned }

/-- Closed form of the cell `(0, 0)` of the C2 run after round `k`
(for `1 ≤ k ≤ 105`): still burning, intensity `0.95`, fuel
`1 − k·0.0095`. -/
noncomputable def c2CellAlive (k : ℕ) : FireCell :=
  { x := 0
    y := 0
    state := CellState.burning
    intensity := 19/20
    fuel_density := 1 - (k : ℝ) * (19/2000)
    temperature_k := 965
    ignition_time_us := ((k : ℤ) - 1) * 10000
    suppression_age_ticks := (k : ℤ) }

/-- Closed form of the cell `(0, 0)` of the C2 run after round 106: fuel
exhausted, burned out. -/
noncomputable def c2CellBurnedOut : FireCell :=
  { x := 0
    y := 0
    state := CellState.burned
    intensity := 0
    fuel_density := 0
    temperature_k := 965
    ignition_time_us := 1050000
    suppression_age_ticks := 106 }

/-- The estimate stored back by `predict_neighbor_state` (the in-place
mutation performed by the source on a tracked neighbor). -/
noncomputable def predictedEstimate (obs : LocalizationObserverState)
    (est : NeighborEstimate) : NeighborEstimate :=
  let age2 := est.estimate_age_ticks + 1
  let zeroVel := decide (obs.constant_velocity_timeout_ticks < age2)
  { est with
    estimate_age_ticks := age2
    estimate_confidence := 1 - (4/5) * min ((age2 : ℝ) / 100) 1
    velocity_model_stale :=
      est.velocity_model_stale || decide (obs.max_latency_ticks < age2)
    estimated_vx := if zeroVel then 0 else est.estimated_vx
    estimated_vy := if zeroVel then 0 else est.estimated_vy
    estimated_vz := if zeroVel then 0 else est.estimated_vz }

/-- The `(x, y, z, confidence)` tuple returned by `predict_neighbor_state`
for a tracked neighbor. -/
noncomputable def predictedValue (obs : LocalizationObserverState)
    (est : NeighborEstimate) (current_time_us : ℤ) : ℝ × ℝ × ℝ × ℝ :=
  let age2 := est.estimate_age_ticks + 1
  let zeroVel := decide (obs.constant_velocity_timeout_ticks < age2)
  let td : ℝ := ((current_time_us - est.estimate_time_us : ℤ) : ℝ) / 1000000
  (est.estimated_x + (if zeroVel then 0 else est.estimated_vx) * td,
   est.estimated_y + (if zeroVel then 0 else est.estimated_vy) * td,
   est.estimated_z + (if zeroVel then 0 else est.estimated_vz) * td,
   1 - (4/5) * min ((age2 : ℝ) / 100) 1)

/-- The observer state after `predict_neighbor_state` on a tracked
neighbor. -/
noncomputable def predictedObserver (o : DistributedObserver) (oid nid : ℕ)
    (obs : LocalizationObserverState) (est : NeighborEstimate) :
    DistributedObserver :=
  let observer2 := { obs with
    neighbors := alistSet obs.neighbors nid (predictedEstimate obs est) }
  { o with local_states := alistSet o.local_states oid observer2 }

/-! ## Theorems -/

/-! ### Shared helper lemmas -/

/-- Replacing a present binding with `alistSet` is found by `lookup`. -/
theorem lookup_map_replace {α : Type} (l : List (ℕ × α)) (k : ℕ) (v : α) :
    (l.map (fun p => if p.1 = k then (k, v) else p)).lookup k =
      if (l.lookup k).isSome then some v else none := by
  induction l with
  | nil => simp
  | cons hd tl ih =>
    obtain ⟨a, b⟩ := hd
    by_cases h : a = k
    · subst h
      simp [List.lookup_cons, ih]
    · have hbeq : (k == a) = false := by
        simp [Ne.symm h]
      simp only [List.map_cons]
      rw [show (if ((a, b) : ℕ × α).1 = k then (k, v) else (a, b)) = (a, b) from
        if_neg h]
      rw [List.lookup_cons, List.lookup_cons, hbeq]
      simp [ih]

/-- Appending a fresh binding is found by `lookup` when the key was absent. -/
theorem lookup_append_fresh {α : Type} (l : List (ℕ × α)) (k : ℕ) (v : α)
    (h : l.lookup k = none) : (l ++ [(k, v)]).lookup k = some v := by
  induction l with
  | nil => simp [List.lookup]
  | cons hd tl ih =>
    obtain ⟨a, b⟩ := hd
    cases hbeq : (k == a) with
    | true =>
      simp [List.lookup, hbeq] at h
    | false =>
      simp only [List.lookup, hbeq, List.cons_append] at h ⊢
      exact ih h

/-- `alistSet` makes the binding visible to `lookup`. -/
theorem lookup_alistSet {α : Type} (l : List (ℕ × α)) (k : ℕ) (v : α) :
    (alistSet l k v).lookup k = some v := by
  unfold alistSet
  by_cases h : (l.lookup k).isSome
  · simp [h, lookup_map_replace]
  · have hnone : l.lookup k = none := by
      cases hl : l.lookup k with
      | none => rfl
      | some w => simp [hl] at h
    simp [h, lookup_append_fresh l k v hnone]

/-- `List.foldl` preserves any invariant preserved by each step. -/
theorem foldl_preserve {α β : Type} (P : α → Prop) (f : α → β → α)
    (l : List β) (a : α) (ha : P a) (hf : ∀ x b, b ∈ l → P x → P (f x b)) :
    P (l.foldl f a) := by
  induction l generalizing a with
  | nil => exact ha
  | cons hd tl ih =>
    exact ih (f a hd) (hf a hd (by simp) ha)
      (fun x b hb hx => hf x b (by simp [hb]) hx)

/-- `BatteryModel.is_critical` decides exactly `battery_percent < 20`. -/
theorem is_critical_iff (b : BatteryModel) :
    b.is_critical = true ↔ b.get_state.battery_percent < BATTERY_MIN_PERCENT := by
  simp [BatteryModel.is_critical, BatteryModel.get_state]

/-- `PayloadModel.is_empty` decides exactly `payload_units ≤ 0`. -/
theorem is_empty_iff (p : PayloadModel) :
    p.is_empty = true ↔ p.payload_units ≤ 0 := by
  simp [PayloadModel.is_empty]

/-! ### C4: RTL override policy -/

/-- C4: with a registered energy manager, `should_rtl_override` returns
`(true, "battery_critical")` when the battery percent is below 20, otherwise
`(true, "payload_empty")` when the payload is at or below 0, otherwise
`(false, "none")`; battery-critical takes precedence when both hold. -/
theorem C4_should_rtl_override_spec (em : EnergyManager) :
    (em.battery.get_state.battery_percent < 20 →
      em.should_rtl_override = (true, "battery_critical")) ∧
    (¬ em.battery.get_state.battery_percent < 20 → em.payload.payload_units ≤ 0 →
      em.should_rtl_override = (true, "payload_empty")) ∧
    (¬ em.battery.get_state.battery_percent < 20 → ¬ em.payload.payload_units ≤ 0 →
      em.should_rtl_override = (false, "none")) ∧
    (em.battery.get_state.battery_percent < 20 → em.payload.payload_units ≤ 0 →
      em.should_rtl_override = (true, "battery_critical")) := by
  have hcrit := is_critical_iff em.battery
  have hemp := is_empty_iff em.payload
  have key : ∀ hc : Prop, True := fun _ => trivial
  refine ⟨?_, ?_, ?_, ?_⟩ <;> intro h1 <;>
    first
    | (intro h2
       unfold EnergyManager.should_rtl_override
       rw [show em.battery.is_critical = false from ?_]
       · rw [show em.payload.is_empty = (decide (em.payload.payload_units ≤ 0)) from rfl]
         simp [h2]
       · rw [← Bool.not_eq_true]
         rw [hcrit]
         simpa [BATTERY_MIN_PERCENT] using h1)
    | (unfold EnergyManager.should_rtl_override
       rw [show em.battery.is_critical = true from hcrit.mpr (by simpa [BATTERY_MIN_PERCENT] using h1)]
       simp)

/-- C4 witness: a manager drained by a 1000 m flight is battery-critical. -/
theorem C4_should_rtl_override_spec_witness :
    (((EnergyManager.init BATTERY_CAPACITY_MAH BATTERY_VOLTAGE_V
        MAX_PAYLOAD_UNITS).update_flight 1000 0 1).2).should_rtl_override =
      (true, "battery_critical") := by
  apply (C4_should_rtl_override_spec _).1
  norm_num [EnergyManager.init, EnergyManager.update_flight, BatteryModel.init,
    BatteryModel.drain_flight, BatteryModel.drain_hover, BatteryModel.get_state,
    clamp, BATTERY_CAPACITY_MAH, BATTERY_VOLTAGE_V, MAX_PAYLOAD_UNITS,
    ENERGY_DRAIN_PER_METER, ENERGY_DRAIN_HOVER_PER_SEC, MAX_HOVER_TIME_S]

/-! ### C6: battery/payload invariants -/

/-- One valid battery operation keeps the capacity fixed and the remaining
energy inside `[0, capacity]`. -/
theorem applyOp_invariant (em : EnergyManager) (op : BatteryOp) (hop : op.valid)
    (h0 : 0 ≤ em.battery.remaining_energy_wh)
    (h1 : em.battery.remaining_energy_wh ≤ em.battery.total_energy_wh) :
    (em.applyOp op).battery.total_energy_wh = em.battery.total_energy_wh ∧
    (em.applyOp op).payload.max_payload_units = em.payload.max_payload_units ∧
    0 ≤ (em.applyOp op).battery.remaining_energy_wh ∧
    (em.applyOp op).battery.remaining_energy_wh ≤
      (em.applyOp op).battery.total_energy_wh := by
  have htot : 0 ≤ em.battery.total_energy_wh := h0.trans h1
  cases op with
  | flight d a =>
    obtain ⟨hd, ha⟩ := hop
    have he : 0 ≤ d * ENERGY_DRAIN_PER_METER * a := by
      have hc : (0:ℚ) ≤ ENERGY_DRAIN_PER_METER := by norm_num [ENERGY_DRAIN_PER_METER]
      exact mul_nonneg (mul_nonneg hd hc) ha
    simp only [EnergyManager.applyOp, BatteryModel.drain_flight]
    exact ⟨trivial, trivial, le_max_left 0 _, max_le htot (by linarith)⟩
  | hover t =>
    have he : 0 ≤ t * ENERGY_DRAIN_HOVER_PER_SEC := by
      have hc : (0:ℚ) ≤ ENERGY_DRAIN_HOVER_PER_SEC := by
        norm_num [ENERGY_DRAIN_HOVER_PER_SEC]
      exact mul_nonneg hop hc
    simp only [EnergyManager.applyOp, BatteryModel.drain_hover]
    exact ⟨trivial, trivial, le_max_left 0 _, max_le htot (by linarith)⟩
  | dockOp =>
    simp only [EnergyManager.applyOp, EnergyManager.dock, BatteryModel.charge_percent,
      PayloadModel.refill]
    have hc : clamp (100 / 100 * em.battery.total_energy_wh) 0 em.battery.total_energy_wh
        = em.battery.total_energy_wh := by
      rw [show (100:ℚ) / 100 * em.battery.total_energy_wh = em.battery.total_energy_wh
        by ring]
      simp [clamp, min_self, max_eq_right htot]
    exact ⟨trivial, trivial, by rw [hc]; exact htot, by rw [hc]⟩

/-- A sequence of valid battery operations keeps the capacity and payload
maximum fixed and the remaining energy inside `[0, capacity]`. -/
theorem applyOps_invariant (ops : List BatteryOp) (em : EnergyManager)
    (hops : ∀ op ∈ ops, op.valid)
    (h0 : 0 ≤ em.battery.remaining_energy_wh)
    (h1 : em.battery.remaining_energy_wh ≤ em.battery.total_energy_wh) :
    (em.applyOps ops).battery.total_energy_wh = em.battery.total_energy_wh ∧
    (em.applyOps ops).payload.max_payload_units = em.payload.max_payload_units ∧
    0 ≤ (em.applyOps ops).battery.remaining_energy_wh ∧
    (em.applyOps ops).battery.remaining_energy_wh ≤
      (em.applyOps ops).battery.total_energy_wh := by
  induction ops generalizing em with
  | nil => exact ⟨rfl, rfl, h0, h1⟩
  | cons op rest ih =>
    have hstep := applyOp_invariant em op (hops op (by simp)) h0 h1
    have hrest := ih (em.applyOp op) (fun o ho => hops o (by simp [ho]))
      hstep.2.2.1 hstep.2.2.2
    have hfold : em.applyOps (op :: rest) = (em.applyOp op).applyOps rest := rfl
    rw [hfold]
    exact ⟨hrest.1.trans hstep.1, hrest.2.1.trans hstep.2.1, hrest.2.2⟩

/-- `dock()` on a manager with positive capacity restores the battery percent
to 100 and the payload units to the maximum. -/
theorem dock_restores (em : EnergyManager) (htot : 0 < em.battery.total_energy_wh) :
    em.dock.battery.get_state.battery_percent = 100 ∧
    em.dock.payload.payload_units = em.payload.max_payload_units := by
  have hrem : em.dock.battery.remaining_energy_wh = em.battery.total_energy_wh := by
    simp only [EnergyManager.dock, BatteryModel.charge_percent]
    rw [show (100:ℚ) / 100 * em.battery.total_energy_wh = em.battery.total_energy_wh
      by ring]
    simp [clamp, min_self, max_eq_right htot.le]
  constructor
  · show clamp (em.dock.battery.remaining_energy_wh /
      em.dock.battery.total_energy_wh * 100) 0 100 = 100
    have htot2 : em.dock.battery.total_energy_wh = em.battery.total_energy_wh := rfl
    rw [hrem, htot2, div_self (ne_of_gt htot)]
    norm_num [clamp]
  · rfl

/-- C6: for every sequence of valid battery operations from a fresh
`EnergyManager`, flight and hover drains never increase the remaining energy,
the remaining energy stays inside `[0, capacity]`, and `dock()` restores the
battery percent to 100 and the payload units to the maximum. -/
theorem C6_energy_invariants (cap volt maxp : ℚ) (hcap : 0 < cap) (hvolt : 0 < volt)
    (ops : List BatteryOp) (hops : ∀ op ∈ ops, op.valid) :
    (∀ (b : BatteryModel) (d a : ℚ), 0 ≤ b.remaining_energy_wh → 0 ≤ d → 0 ≤ a →
      ((b.drain_flight d a).2).remaining_energy_wh ≤ b.remaining_energy_wh) ∧
    (∀ (b : BatteryModel) (t : ℚ), 0 ≤ b.remaining_energy_wh → 0 ≤ t →
      ((b.drain_hover t).2).remaining_energy_wh ≤ b.remaining_energy_wh) ∧
    (0 ≤ ((EnergyManager.init cap volt maxp).applyOps ops).battery.remaining_energy_wh ∧
      ((EnergyManager.init cap volt maxp).applyOps ops).battery.remaining_energy_wh ≤
        cap / 1000 * volt) ∧
    (((EnergyManager.init cap volt maxp).applyOps ops).dock.battery.get_state.battery_percent
        = 100 ∧
      ((EnergyManager.init cap volt maxp).applyOps ops).dock.payload.payload_units
        = maxp) := by
  have hbase := applyOps_invariant ops (EnergyManager.init cap volt maxp) hops
    (by
      show (0:ℚ) ≤ cap / 1000 * volt
      positivity)
    (le_refl _)
  have htotpos : (0:ℚ) < cap / 1000 * volt := by positivity
  have htoteq : ((EnergyManager.init cap volt maxp).applyOps ops).battery.total_energy_wh
      = cap / 1000 * volt := hbase.1.trans rfl
  have hdock := dock_restores ((EnergyManager.init cap volt maxp).applyOps ops)
    (lt_of_lt_of_eq htotpos htoteq.symm)
  refine ⟨?_, ?_, ⟨hbase.2.2.1, le_of_le_of_eq hbase.2.2.2 htoteq⟩, hdock.1, ?_⟩
  · intro b d a hb hd ha
    have he : 0 ≤ d * ENERGY_DRAIN_PER_METER * a := by
      have hc : (0:ℚ) ≤ ENERGY_DRAIN_PER_METER := by norm_num [ENERGY_DRAIN_PER_METER]
      exact mul_nonneg (mul_nonneg hd hc) ha
    exact max_le hb (by linarith)
  · intro b t hb ht
    have he : 0 ≤ t * ENERGY_DRAIN_HOVER_PER_SEC := by
      have hc : (0:ℚ) ≤ ENERGY_DRAIN_HOVER_PER_SEC := by
        norm_num [ENERGY_DRAIN_HOVER_PER_SEC]
      exact mul_nonneg ht hc
    exact max_le hb (by linarith)
  · exact hdock.2.trans hbase.2.1

/-- C6 witness: a concrete flight/hover/dock sequence from a fresh default
manager keeps the energy non-negative and docking restores 100 %. -/
theorem C6_energy_invariants_witness :
    0 ≤ ((EnergyManager.init 5000 (148/10) 40).applyOps
      [BatteryOp.flight 10 1, BatteryOp.hover 5, BatteryOp.dockOp]).battery.remaining_energy_wh ∧
    ((EnergyManager.init 5000 (148/10) 40).applyOps
      [BatteryOp.flight 10 1, BatteryOp.hover 5, BatteryOp.dockOp]).dock.battery.get_state.battery_percent = 100 := by
  have h := C6_energy_invariants 5000 (148/10) 40 (by norm_num) (by norm_num)
    [BatteryOp.flight 10 1, BatteryOp.hover 5, BatteryOp.dockOp]
    (by
      intro op hop
      fin_cases hop <;> norm_num [BatteryOp.valid])
  exact ⟨h.2.2.1.1, h.2.2.2.1⟩

/-! ### C5: path-loss monotonicity and reference value -/

/-- C5: for a path-loss model with positive reference distance and
non-negative exponent (the configured values are `d₀ = 1`, `n = 3`),
`calculate_path_loss` is monotonically non-decreasing on positive distances
and vanishes at the reference distance. -/
theorem C5_path_loss_spec (m : PathLossModel)
    (hd0 : 0 < m.reference_distance_m) (hn : 0 ≤ m.path_loss_exponent) :
    (∀ d1 d2 : ℝ, 0 < d1 → d1 ≤ d2 →
      m.calculate_path_loss d1 ≤ m.calculate_path_loss d2) ∧
    m.calculate_path_loss m.reference_distance_m = 0 := by
  constructor
  · intro d1 d2 h1 h12
    have h2 : 0 < d2 := lt_of_lt_of_le h1 h12
    unfold PathLossModel.calculate_path_loss
    rw [if_neg (not_le.mpr h1), if_neg (not_le.mpr h2)]
    have hcoef : (0:ℝ) ≤ 10 * m.path_loss_exponent := by linarith
    refine mul_le_mul_of_nonneg_left ?_ hcoef
    refine Real.logb_le_logb_of_le (by norm_num) (by positivity) ?_
    gcongr
  · unfold PathLossModel.calculate_path_loss
    rw [if_neg (not_le.mpr hd0), div_self (ne_of_gt hd0), Real.logb_one, mul_zero]

/-- C5 witness at the configured constants (`d₀ = 1`, `n = 3`):
`path_loss(1) = 0` and `path_loss(10) ≤ path_loss(100)`. -/
theorem C5_path_loss_spec_witness :
    (PathLossModel.mk REFERENCE_DISTANCE_M PATH_LOSS_EXPONENT
      REFERENCE_RSSI_DBM).calculate_path_loss REFERENCE_DISTANCE_M = 0 ∧
    (PathLossModel.mk REFERENCE_DISTANCE_M PATH_LOSS_EXPONENT
      REFERENCE_RSSI_DBM).calculate_path_loss 10 ≤
      (PathLossModel.mk REFERENCE_DISTANCE_M PATH_LOSS_EXPONENT
        REFERENCE_RSSI_DBM).calculate_path_loss 100 := by
  have h := C5_path_loss_spec
    (PathLossModel.mk REFERENCE_DISTANCE_M PATH_LOSS_EXPONENT REFERENCE_RSSI_DBM)
    (by norm_num [REFERENCE_DISTANCE_M]) (by norm_num [PATH_LOSS_EXPONENT])
  exact ⟨h.2, h.1 10 100 (by norm_num) (by norm_num)⟩

/-! ### C10: DETM behaviour for unregistered drones -/

/-- C10: a DETM query for a drone id that was never registered defaults to
transmitting with the default threshold `DETM_ETA0` and leaves the controller
unchanged, and `record_transmission` for such an id is a no-op. -/
theorem C10_detm_unregistered (c : DETMController) (drone_id : ℕ)
    (h : c.states.lookup drone_id = none) (time_us : ℤ) (x y z vx vy vz : ℝ) :
    c.should_transmit drone_id time_us x y z vx vy vz = ((true, DETM_ETA0), c) ∧
    c.record_transmission drone_id time_us x y z vx vy vz = c := by
  unfold DETMController.should_transmit DETMController.record_transmission
  rw [h]
  exact ⟨rfl, rfl⟩

/-- C10 witness: the freshly constructed (empty) controller at drone id 5. -/
theorem C10_detm_unregistered_witness :
    DETMController.init.should_transmit 5 0 0 0 0 0 0 0 =
      ((true, DETM_ETA0), DETMController.init) ∧
    DETMController.init.record_transmission 5 0 0 0 0 0 0 0 = DETMController.init :=
  C10_detm_unregistered DETMController.init 5 rfl 0 0 0 0 0 0 0

/-! ### C3: the DETM trigger rule -/

/-- The L2 state error of identical tuples is zero. -/
theorem errL2_self (v : Vec6) : errL2 v v = 0 := by
  simp [errL2]

/-- The L∞ state error of identical tuples is zero. -/
theorem errLinf_self (v : Vec6) : errLinf v v = 0 := by
  simp [errLinf]

/-- C3: for a registered drone, `should_transmit` computes
`η(t) = max(η_MIN, η₀·exp(−λ·(t − t_last)/1e6))`, returns it, and fires
exactly when the registered norm of the state deviation exceeds `η(t)`; in
particular a query equal to the last transmitted 6-tuple never fires. -/
theorem C3_should_transmit_spec (c : DETMController) (drone_id : ℕ) (st : DetmState)
    (h : c.states.lookup drone_id = some st) (time_us : ℤ) (x y z vx vy vz : ℝ) :
    (((c.should_transmit drone_id time_us x y z vx vy vz).1.1 = true ↔
      max DETM_MIN_ETA (st.eta0 * Real.exp (-st.lambda_decay *
        (((time_us - st.last_transmitted_time_us : ℤ) : ℝ) / 1000000))) <
        (if st.norm_type = "l2"
          then errL2 ⟨x, y, z, vx, vy, vz⟩ st.last_transmitted_state
          else errLinf ⟨x, y, z, vx, vy, vz⟩ st.last_transmitted_state)) ∧
     (c.should_transmit drone_id time_us x y z vx vy vz).1.2 =
      max DETM_MIN_ETA (st.eta0 * Real.exp (-st.lambda_decay *
        (((time_us - st.last_transmitted_time_us : ℤ) : ℝ) / 1000000)))) ∧
    (Vec6.mk x y z vx vy vz = st.last_transmitted_state →
      (c.should_transmit drone_id time_us x y z vx vy vz).1.1 = false) := by
  have hmain : c.should_transmit drone_id time_us x y z vx vy vz =
      let current_state : Vec6 := ⟨x, y, z, vx, vy, vz⟩
      let delta_t_s : ℝ := ((time_us - st.last_transmitted_time_us : ℤ) : ℝ) / 1000000
      let current_eta := max (st.eta0 * Real.exp (-st.lambda_decay * delta_t_s))
        DETM_MIN_ETA
      let error :=
        if st.norm_type = "l2" then errL2 current_state st.last_transmitted_state
        else errLinf current_state st.last_transmitted_state
      let should_tx := decide (current_eta < error)
      ((should_tx, current_eta), ⟨alistSet c.states drone_id
        { st with
          current_eta := current_eta
          triggers_fired := st.triggers_fired + (if should_tx then 1 else 0)
          triggers_suppressed := st.triggers_suppressed + (if should_tx then 0 else 1) }⟩) := by
    unfold DETMController.should_transmit
    rw [h]
  refine ⟨⟨?_, ?_⟩, ?_⟩
  · rw [hmain]
    simp only [decide_eq_true_eq]
    rw [max_comm]
  · rw [hmain]
    simp only []
    rw [max_comm]
  · intro heq
    rw [hmain]
    simp only [decide_eq_true_eq]
    have herr : (if st.norm_type = "l2"
        then errL2 ⟨x, y, z, vx, vy, vz⟩ st.last_transmitted_state
        else errLinf ⟨x, y, z, vx, vy, vz⟩ st.last_transmitted_state) = 0 := by
      rw [show (⟨x, y, z, vx, vy, vz⟩ : Vec6) = st.last_transmitted_state from heq]
      by_cases hn : st.norm_type = "l2"
      · rw [if_pos hn, errL2_self]
      · rw [if_neg hn, errLinf_self]
    rw [herr]
    simp only [decide_eq_false_iff_not, not_lt]
    calc (0:ℝ) ≤ DETM_MIN_ETA := by norm_num [DETM_MIN_ETA]
    _ ≤ _ := le_max_right _ _

/-- C3 witness: a freshly registered drone queried at its registered
last-transmitted state (the zero tuple) does not fire at `t = 0`. -/
theorem C3_should_transmit_spec_witness :
    ((DETMController.init.register_drone 1 DETM_ETA0 DETM_LAMBDA
      "l2").should_transmit 1 0 0 0 0 0 0 0).1.1 = false := by
  refine (C3_should_transmit_spec _ 1
    { drone_id := 1
      eta0 := DETM_ETA0
      lambda_decay := DETM_LAMBDA
      norm_type := String.toLower "l2"
      last_transmitted_state := ⟨0, 0, 0, 0, 0, 0⟩
      last_transmitted_time_us := 0
      current_eta := DETM_ETA0
      eta_age_ticks := 0
      transmissions_total := 0
      triggers_fired := 0
      triggers_suppressed := 0 } ?_ 0 0 0 0 0 0 0).2 rfl
  rfl

/-! ### C1: seeded determinism is broken by the process-global random module -/

/-- C1 (code bug witness): two runs constructed with the same seed (42) and
fed the same commands, whose drone is in `SEARCH` with `state_ticks = 101`,
produce different snapshots when the never-seeded process-global
`random.uniform(-30, 30)` draw differs (10 versus 20): the seeded component
agrees but the heading — hence the published drone state — differs. -/
theorem C1_search_nondeterminism :
    (searchRunSnapshot 42 ⟨101, 0⟩ 10).1 = (searchRunSnapshot 42 ⟨101, 0⟩ 20).1 ∧
    (searchRunSnapshot 42 ⟨101, 0⟩ 10).2 ≠ (searchRunSnapshot 42 ⟨101, 0⟩ 20).2 := by
  refine ⟨rfl, ?_⟩
  have h10 : stepSearch ⟨101, 0⟩ 10 = ⟨101, 10⟩ := by
    unfold stepSearch qfmod
    norm_num
  have h20 : stepSearch ⟨101, 0⟩ 20 = ⟨101, 20⟩ := by
    unfold stepSearch qfmod
    norm_num
  show stepSearch ⟨101, 0⟩ 10 ≠ stepSearch ⟨101, 0⟩ 20
  rw [h10, h20]
  intro hcontra
  have : (10:ℚ) = 20 := congrArg SearchDroneState.heading_deg hcontra
  norm_num at this

/-! ### C8: observer confidence decay -/

/-- Characterisation of `predict_neighbor_state` on a tracked neighbor. -/
theorem predict_present_eq (o : DistributedObserver) (oid nid : ℕ)
    (obs : LocalizationObserverState) (est : NeighborEstimate)
    (h1 : o.local_states.lookup oid = some obs)
    (h2 : obs.neighbors.lookup nid = some est) (t : ℤ) :
    o.predict_neighbor_state oid nid t =
      (some (predictedValue obs est t), predictedObserver o oid nid obs est) := by
  unfold DistributedObserver.predict_neighbor_state
  rw [h1]
  simp only [h2]
  rfl

/-- C8: each `predict` call on a tracked neighbor increments the estimate age
by one tick and returns confidence `1 − 0.8·min(age/100, 1)`; across two
successive `predict` calls with no intervening ingest the returned confidence
does not increase. -/
theorem C8_observer_confidence (o : DistributedObserver) (oid nid : ℕ)
    (obs : LocalizationObserverState) (est : NeighborEstimate)
    (h1 : o.local_states.lookup oid = some obs)
    (h2 : obs.neighbors.lookup nid = some est) (t1 t2 : ℤ) :
    (o.predict_neighbor_state oid nid t1).1 = some (predictedValue obs est t1) ∧
    ((o.predict_neighbor_state oid nid t1).2.local_states.lookup oid).bind
      (fun ob => ob.neighbors.lookup nid) = some (predictedEstimate obs est) ∧
    (predictedEstimate obs est).estimate_age_ticks = est.estimate_age_ticks + 1 ∧
    (predictedValue obs est t1).2.2.2 =
      1 - (4/5) * min (((est.estimate_age_ticks + 1 : ℕ) : ℝ) / 100) 1 ∧
    (∀ px1 py1 pz1 c1 px2 py2 pz2 c2 : ℝ,
      (o.predict_neighbor_state oid nid t1).1 = some (px1, py1, pz1, c1) →
      ((o.predict_neighbor_state oid nid t1).2.predict_neighbor_state oid nid t2).1 =
        some (px2, py2, pz2, c2) →
      c2 ≤ c1) := by
  have e1 := predict_present_eq o oid nid obs est h1 h2 t1
  have hlook2 : (predictedObserver o oid nid obs est).local_states.lookup oid =
      some { obs with neighbors := alistSet obs.neighbors nid (predictedEstimate obs est) } :=
    lookup_alistSet _ _ _
  have hlook2n : (alistSet obs.neighbors nid (predictedEstimate obs est)).lookup nid =
      some (predictedEstimate obs est) := lookup_alistSet _ _ _
  refine ⟨by rw [e1], ?_, rfl, rfl, ?_⟩
  · rw [e1]
    show ((predictedObserver o oid nid obs est).local_states.lookup oid).bind
      (fun ob => ob.neighbors.lookup nid) = some (predictedEstimate obs est)
    rw [hlook2]
    exact hlook2n
  · intro px1 py1 pz1 c1 px2 py2 pz2 c2 hc1 hc2
    rw [e1] at hc1
    have hc1v : c1 = 1 - (4/5) * min (((est.estimate_age_ticks + 1 : ℕ) : ℝ) / 100) 1 := by
      have := Option.some.inj hc1
      have h4 := congrArg (fun p : ℝ × ℝ × ℝ × ℝ => p.2.2.2) this
      simpa [predictedValue] using h4.symm
    have e2 := predict_present_eq (predictedObserver o oid nid obs est) oid nid
      { obs with neighbors := alistSet obs.neighbors nid (predictedEstimate obs est) }
      (predictedEstimate obs est) hlook2 hlook2n t2
    rw [e1] at hc2
    rw [e2] at hc2
    have hc2v : c2 = 1 - (4/5) * min (((est.estimate_age_ticks + 2 : ℕ) : ℝ) / 100) 1 := by
      have := Option.some.inj hc2
      have h4 := congrArg (fun p : ℝ × ℝ × ℝ × ℝ => p.2.2.2) this
      have hage : (predictedEstimate obs est).estimate_age_ticks + 1 =
          est.estimate_age_ticks + 2 := rfl
      simpa [predictedValue, hage] using h4.symm
    rw [hc1v, hc2v]
    have hmin : min (((est.estimate_age_ticks + 1 : ℕ) : ℝ) / 100) 1 ≤
        min (((est.estimate_age_ticks + 2 : ℕ) : ℝ) / 100) 1 := by
      refine min_le_min ?_ (le_refl 1)
      have : ((est.estimate_age_ticks + 1 : ℕ) : ℝ) ≤ ((est.estimate_age_ticks + 2 : ℕ) : ℝ) := by
        push_cast
        linarith
      linarith
    linarith

/-- C8 witness: drone 1 registered with neighbor 2; two successive predicts
return confidences `0.992` then `0.984`. -/
theorem C8_observer_confidence_witness :
    (((DistributedObserver.init 500 200 (19/20)).register_drone 1
      [2]).predict_neighbor_state 1 2 0).1 =
      some (0, 0, 0, 1 - (4/5) * min ((1 : ℝ) / 100) 1) := by
  have h := C8_observer_confidence
    ((DistributedObserver.init 500 200 (19/20)).register_drone 1 [2]) 1 2
    { drone_id := 1
      max_latency_ticks := 50
      constant_velocity_timeout_ticks := 20
      confidence_decay_rate := 19/20
      neighbors := [(2,
        { neighbor_id := 2
          estimated_x := 0, estimated_y := 0, estimated_z := 0
          estimated_vx := 0, estimated_vy := 0, estimated_vz := 0
          estimate_time_us := 0
          estimate_age_ticks := 0
          estimate_confidence := 0
          velocity_model_stale := true })]
      }
    { neighbor_id := 2
      estimated_x := 0, estimated_y := 0, estimated_z := 0
      estimated_vx := 0, estimated_vy := 0, estimated_vz := 0
      estimate_time_us := 0
      estimate_age_ticks := 0
      estimate_confidence := 0
      velocity_model_stale := true }
    (by rfl) (by rfl) 0 0
  rw [h.1]
  simp [predictedValue]

/-! ### C9: totality on invalid input -/

/-- C9: invalid inputs are handled totally and without mutation:
out-of-bounds `ignite` returns `false`, out-of-bounds `suppress` returns 0,
out-of-bounds `get_cell` returns `None`, and the observer operations return
`None`, the empty list, or no-op on unknown observer or neighbor ids. -/
theorem C9_totality (s : FireSimulation) (x y : ℤ) (i str : ℝ)
    (hoob : ¬ s.in_bounds x y)
    (o : DistributedObserver) (oid nid : ℕ) (t : ℤ) (dx dy dz msep : ℝ)
    (hobs : o.local_states.lookup oid = none)
    (o2 : DistributedObserver) (oid2 nid2 : ℕ) (obs2 : LocalizationObserverState)
    (hobs2 : o2.local_states.lookup oid2 = some obs2)
    (hnbr2 : obs2.neighbors.lookup nid2 = none) :
    s.ignite x y i = (false, s) ∧
    s.suppress x y str = (0, s) ∧
    s.get_cell x y = none ∧
    o.predict_neighbor_state oid nid t = (none, o) ∧
    o.get_separation_to_neighbor oid nid t dx dy dz = (none, o) ∧
    o.check_collision_risk oid t dx dy dz msep = ([], o) ∧
    o.update_neighbor oid nid t dx dy dz 0 0 0 = o ∧
    o2.predict_neighbor_state oid2 nid2 t = (none, o2) := by
  have hpred : o.predict_neighbor_state oid nid t = (none, o) := by
    unfold DistributedObserver.predict_neighbor_state
    rw [hobs]
  refine ⟨?_, ?_, ?_, hpred, ?_, ?_, ?_, ?_⟩
  · unfold FireSimulation.ignite
    rw [if_neg hoob]
  · unfold FireSimulation.suppress
    rw [if_neg hoob]
  · unfold FireSimulation.get_cell
    rw [if_neg hoob]
  · unfold DistributedObserver.get_separation_to_neighbor
    rw [hpred]
  · unfold DistributedObserver.check_collision_risk
    rw [hobs]
  · unfold DistributedObserver.update_neighbor
    rw [hobs]
  · unfold DistributedObserver.predict_neighbor_state
    rw [hobs2]
    simp only [hnbr2]

/-- `in_bounds` on a freshly constructed grid reduces to the bounds of the
constructor arguments. -/
theorem in_bounds_init (w h : ℕ) (cs : ℝ) (st : ℕ → ℝ) (x y : ℤ)
    (hx : 0 ≤ x) (hx2 : x < (w:ℤ)) (hy : 0 ≤ y) (hy2 : y < (h:ℤ)) :
    (FireSimulation.init w h cs st).in_bounds x y := ⟨hx, hx2, hy, hy2⟩

/-- C9 witness: a 2×2 grid queried at `(5, 0)`, an empty observer queried for
drone 1, and an observer knowing drone 1 (no neighbors) queried for
neighbor 2. -/
theorem C9_totality_witness :
    (FireSimulation.init 2 2 10 zeroStream).suppress 5 0 1 =
      (0, FireSimulation.init 2 2 10 zeroStream) ∧
    (DistributedObserver.init 500 200 (19/20)).check_collision_risk 1 0 0 0 0 10 =
      ([], DistributedObserver.init 500 200 (19/20)) ∧
    (((DistributedObserver.init 500 200 (19/20)).register_drone 1
      []).predict_neighbor_state 1 2 0).1 = none := by
  have h := C9_totality (FireSimulation.init 2 2 10 zeroStream) 5 0 1 1
    (by
      intro hcontra
      have h5 : (5:ℤ) < ((2:ℕ):ℤ) := hcontra.2.1
      norm_num at h5)
    (DistributedObserver.init 500 200 (19/20)) 1 1 0 0 0 0 10 rfl
    ((DistributedObserver.init 500 200 (19/20)).register_drone 1 []) 1 2
    { drone_id := 1
      max_latency_ticks := 50
      constant_velocity_timeout_ticks := 20
      confidence_decay_rate := 19/20
      neighbors := [] }
    (by rfl) (by rfl)
  exact ⟨h.2.1, h.2.2.2.2.2.1, by rw [h.2.2.2.2.2.2.2]⟩

/-! ### C7: the suppress operation -/

/-- C7: on an in-bounds cell `suppress` returns
`reduction = intensity·strength·SUPPRESSION_EFFECTIVENESS`, lowers the
intensity by the reduction clamped at 0, resets the suppression age, marks a
cell whose intensity reached 0 as `SUPPRESSED` at 300 K, and leaves every
other cell unchanged; out of bounds it returns 0 and changes nothing. -/
theorem C7_suppress_spec (s : FireSimulation) (x y : ℤ) (strength : ℝ) :
    (¬ s.in_bounds x y → s.suppress x y strength = (0, s)) ∧
    (s.in_bounds x y →
      (s.suppress x y strength).1 =
        (s.cells y x).intensity * strength * SUPPRESSION_EFFECTIVENESS ∧
      ((s.suppress x y strength).2.cells y x).intensity =
        max 0 ((s.cells y x).intensity -
          (s.cells y x).intensity * strength * SUPPRESSION_EFFECTIVENESS) ∧
      ((s.suppress x y strength).2.cells y x).suppression_age_ticks = 0 ∧
      (((s.suppress x y strength).2.cells y x).intensity = 0 →
        ((s.suppress x y strength).2.cells y x).state = CellState.suppressed ∧
        ((s.suppress x y strength).2.cells y x).temperature_k = 300) ∧
      (∀ y2 x2 : ℤ, ¬(y2 = y ∧ x2 = x) →
        (s.suppress x y strength).2.cells y2 x2 = s.cells y2 x2)) := by
  constructor
  · intro hoob
    unfold FireSimulation.suppress
    rw [if_neg hoob]
  · intro hin
    unfold FireSimulation.suppress
    rw [if_pos hin]
    simp only [updCell, and_self, eq_self_iff_true, if_true]
    by_cases hz : max 0 ((s.cells y x).intensity -
        (s.cells y x).intensity * strength * SUPPRESSION_EFFECTIVENESS) ≤ 0
    · rw [if_pos hz]
      refine ⟨by trivial, by trivial, by trivial, fun _ => ⟨by trivial, by trivial⟩, ?_⟩
      intro y2 x2 hne
      simp [updCell, if_neg hne]
    · rw [if_neg hz]
      refine ⟨by trivial, by trivial, by trivial, ?_, ?_⟩
      · intro hzero
        exact absurd (le_of_eq hzero) hz
      · intro y2 x2 hne
        simp [updCell, if_neg hne]

/-- C7 witness: ignite `(0,0)` on a 1×1 grid at intensity 1, then
`suppress(0, 0, 0.5)` returns reduction `0.45` and lowers the intensity
to `0.55`. -/
theorem C7_suppress_spec_witness :
    ((((FireSimulation.init 1 1 10 zeroStream).ignite 0 0 1).2).suppress 0 0 (1/2)).1 =
      9/20 := by
  have hin0 : (FireSimulation.init 1 1 10 zeroStream).in_bounds 0 0 :=
    in_bounds_init 1 1 10 zeroStream 0 0 (le_refl 0) (by norm_num) (le_refl 0)
      (by norm_num)
  have hin : (((FireSimulation.init 1 1 10 zeroStream).ignite 0 0 1).2).in_bounds 0 0 := by
    unfold FireSimulation.ignite
    rw [if_pos hin0]
    exact hin0
  have h := (C7_suppress_spec (((FireSimulation.init 1 1 10 zeroStream).ignite 0 0 1).2)
    0 0 (1/2)).2 hin
  rw [h.1]
  have hcell : ((((FireSimulation.init 1 1 10 zeroStream).ignite 0 0 1).2).cells 0 0).intensity
      = 1 := by
    unfold FireSimulation.ignite
    rw [if_pos hin0]
    simp [updCell, FIRE_INTENSITY_IGNITION]
    norm_num
  rw [hcell, SUPPRESSION_EFFECTIVENESS]
  norm_num

/-! ### C2 (amended): the fuel/intensity/Burned invariant under ignite and step -/

/-- The cell written by `ignite` satisfies the C2 invariant outright: its
intensity is at least `FIRE_INTENSITY_IGNITION = 0.5`. -/
theorem igniteCell_inv (c : FireCell) (i : ℝ) (t : ℤ) :
    cellFuelInvariant { c with
      state := CellState.burning
      intensity := max i FIRE_INTENSITY_IGNITION
      ignition_time_us := t
      temperature_k := 500 } := by
  intro _ hi
  exfalso
  have hhalf : (1/2 : ℝ) ≤ max i FIRE_INTENSITY_IGNITION := by
    rw [FIRE_INTENSITY_IGNITION]
    exact le_max_right _ _
  have hlt : max i FIRE_INTENSITY_IGNITION < 1/1000 := hi
  linarith

/-- `ignite` preserves the grid C2 invariant. -/
theorem ignite_preserves_inv (s : FireSimulation) (x y : ℤ) (i : ℝ)
    (h : gridFuelInvariant s) : gridFuelInvariant (s.ignite x y i).2 := by
  unfold FireSimulation.ignite
  by_cases hin : s.in_bounds x y
  · rw [if_pos hin]
    intro y2 x2
    show cellFuelInvariant (updCell s.cells y x _ y2 x2)
    unfold updCell
    by_cases he : y2 = y ∧ x2 = x
    · rw [if_pos he]
      exact igniteCell_inv (s.cells y x) i s.time_us
    · rw [if_neg he]
      exact h y2 x2
  · rw [if_neg hin]
    exact h

/-- The per-cell burn update of `step` satisfies the C2 invariant: a cell
that keeps burning keeps positive fuel, and a burnt-out cell is `BURNED`. -/
theorem stepBurnCell_inv (c : FireCell) : cellFuelInvariant (stepBurnCell c).1 := by
  simp only [stepBurnCell]
  by_cases hcond : max 0 (c.fuel_density - c.intensity * INTENSITY_DECAY_FACTOR * (1/100)) ≤ 0
      ∨ c.intensity * INTENSITY_DECAY_FACTOR ≤ 1/1000
  · rw [if_pos hcond]
    intro _ _
    rfl
  · rw [if_neg hcond]
    intro hf _
    push_neg at hcond
    exact absurd hf (ne_of_gt hcond.1)

/-- A cell update that only touches the suppression age preserves the C2
invariant. -/
theorem age_bump_inv (c : FireCell) (P : Prop) [Decidable P] (v : ℤ)
    (hc : cellFuelInvariant c) :
    cellFuelInvariant (if P then { c with suppression_age_ticks := v } else c) := by
  by_cases hp : P
  · rw [if_pos hp]
    intro hf hi
    exact hc hf hi
  · rw [if_neg hp]
    exact hc

/-- One iteration of the burning-cell sweep preserves the C2 invariant on
every cell: it either leaves the grid untouched or writes the `stepBurnCell`
update at one index. -/
theorem sweepCell_inv (w h : ℕ) (cs wvx wvy : ℝ) (stream : ℕ → ℝ)
    (acc : SweepAcc) (yx : ℤ × ℤ)
    (hacc : ∀ y x : ℤ, cellFuelInvariant (acc.cells y x)) :
    ∀ y x : ℤ, cellFuelInvariant ((sweepCell w h cs wvx wvy stream acc yx).cells y x) := by
  simp only [sweepCell]
  by_cases hb : (acc.cells yx.1 yx.2).is_burning
  · rw [if_pos hb]
    by_cases hr : (stepBurnCell (acc.cells yx.1 yx.2)).2 = true
    · rw [if_pos hr]
      intro y x
      show cellFuelInvariant (updCell acc.cells yx.1 yx.2 _ y x)
      unfold updCell
      by_cases he : y = yx.1 ∧ x = yx.2
      · rw [if_pos he]
        exact stepBurnCell_inv _
      · rw [if_neg he]
        exact hacc y x
    · rw [if_neg hr]
      intro y x
      show cellFuelInvariant (updCell acc.cells yx.1 yx.2 _ y x)
      unfold updCell
      by_cases he : y = yx.1 ∧ x = yx.2
      · rw [if_pos he]
        exact stepBurnCell_inv _
      · rw [if_neg he]
        exact hacc y x
  · rw [if_neg hb]
    exact hacc

/-- Applying the queued ignitions preserves the C2 invariant. -/
theorem applyQueue_inv (queue : List (ℤ × ℤ × ℝ)) (p : ℕ × FireSimulation)
    (hp : gridFuelInvariant p.2) :
    gridFuelInvariant ((queue.foldl (fun (p : ℕ × FireSimulation) item =>
      let g := p.2.ignite item.1 item.2.1 item.2.2
      (p.1 + (if g.1 then 1 else 0), g.2)) p).2) := by
  refine foldl_preserve (fun q : ℕ × FireSimulation => gridFuelInvariant q.2) _ queue p hp ?_
  intro q item _ hq
  exact ignite_preserves_inv q.2 item.1 item.2.1 item.2.2 hq

/-- `step` preserves the C2 invariant. -/
theorem step_preserves_inv (s : FireSimulation) (h : gridFuelInvariant s) :
    gridFuelInvariant s.step.2 := by
  simp only [FireSimulation.step]
  have hsweep : ∀ y2 x2 : ℤ, cellFuelInvariant
      (((gridIndices s.width s.height).foldl
        (sweepCell s.width s.height s.cell_size_m
          (s.wind_model.get_wind_vector).1 (s.wind_model.get_wind_vector).2 s.rngStream)
        ⟨s.cells, s.rngCursor, [], 0⟩).cells y2 x2) := by
    refine foldl_preserve (fun a : SweepAcc => ∀ y2 x2 : ℤ, cellFuelInvariant (a.cells y2 x2))
      _ _ _ h ?_
    intro a yx _ ha
    exact sweepCell_inv s.width s.height s.cell_size_m _ _ s.rngStream a yx ha
  have happly := applyQueue_inv
    ((gridIndices s.width s.height).foldl
      (sweepCell s.width s.height s.cell_size_m
        (s.wind_model.get_wind_vector).1 (s.wind_model.get_wind_vector).2 s.rngStream)
      ⟨s.cells, s.rngCursor, [], 0⟩).queue
    (0, { s with
      cells := ((gridIndices s.width s.height).foldl
        (sweepCell s.width s.height s.cell_size_m
          (s.wind_model.get_wind_vector).1 (s.wind_model.get_wind_vector).2 s.rngStream)
        ⟨s.cells, s.rngCursor, [], 0⟩).cells
      rngCursor := ((gridIndices s.width s.height).foldl
        (sweepCell s.width s.height s.cell_size_m
          (s.wind_model.get_wind_vector).1 (s.wind_model.get_wind_vector).2 s.rngStream)
        ⟨s.cells, s.rngCursor, [], 0⟩).cursor
      ticks := s.ticks + 1
      time_us := s.time_us + SIM_TICK_PERIOD_US
      total_burned_cells := s.total_burned_cells +
        ((gridIndices s.width s.height).foldl
          (sweepCell s.width s.height s.cell_size_m
            (s.wind_model.get_wind_vector).1 (s.wind_model.get_wind_vector).2 s.rngStream)
          ⟨s.cells, s.rngCursor, [], 0⟩).burnedOut })
    hsweep
  intro y x
  exact age_bump_inv _ _ _ (happly y x)

/-- Updating the same grid index twice keeps only the second write. -/
theorem updCell_updCell (cells : ℤ → ℤ → FireCell) (y x : ℤ) (c1 c2 : FireCell) :
    updCell (updCell cells y x c1) y x c2 = updCell cells y x c2 := by
  funext y2 x2
  unfold updCell
  by_cases h : y2 = y ∧ x2 = x
  · rw [if_pos h, if_pos h]
  · rw [if_neg h, if_neg h, if_neg h]

/-- Reading the updated index returns the written cell. -/
theorem updCell_same (cells : ℤ → ℤ → FireCell) (y x : ℤ) (c : FireCell) :
    updCell cells y x c y x = c := by
  simp [updCell]

/-- Reading any other index is unchanged. -/
theorem updCell_other (cells : ℤ → ℤ → FireCell) (y x y2 x2 : ℤ) (c : FireCell)
    (h : ¬(y2 = y ∧ x2 = x)) : updCell cells y x c y2 x2 = cells y2 x2 := by
  simp [updCell, if_neg h]

/-- On a 1×1 grid the neighbor scan of cell `(0, 0)` is empty for every
spread distance: every non-centre offset is out of bounds. -/
theorem neighbors_1x1 (D : ℝ) : neighborsWithinDistance 1 1 0 0 D = [] := by
  simp only [neighborsWithinDistance]
  rw [List.flatMap_eq_nil_iff]
  intro dy _
  rw [List.filterMap_eq_nil_iff]
  intro dx _
  by_cases hc : dx = 0 ∧ dy = 0
  · rw [if_pos hc]
  · rw [if_neg hc]
    have hb : ¬ inBoundsP 1 1 (0 + dx) (0 + dy) := by
      intro hbb
      obtain ⟨h1, h2, h3, h4⟩ := hbb
      apply hc
      constructor <;> omega
    rw [if_neg hb]

/-- C2 (amended): every grid state reachable by any interleaving of `ignite`
and `step` from the initial grid satisfies the invariant: a cell with fuel 0
and intensity below 0.001 is `BURNED`. -/
theorem C2_fuel_invariant (w h : ℕ) (cs : ℝ) (stream : ℕ → ℝ) (s : FireSimulation)
    (hs : ReachableIS w h cs stream s) : gridFuelInvariant s := by
  induction hs with
  | init =>
    intro y x hf _
    exfalso
    have h1 : (FUEL_DENSITY_FACTOR : ℝ) = 0 := hf
    rw [FUEL_DENSITY_FACTOR] at h1
    norm_num at h1
  | ignite s2 x y i _ ih => exact ignite_preserves_inv s2 x y i ih
  | step s2 _ ih => exact step_preserves_inv s2 ih

/-- C2 (amended) witness: the invariant holds after an ignite at `(0, 0)`
followed by one step on the 1×1 grid. -/
theorem C2_fuel_invariant_witness :
    gridFuelInvariant (((FireSimulation.init 1 1 10 zeroStream).ignite 0 0 1).2.step.2) :=
  C2_fuel_invariant 1 1 10 zeroStream _
    (ReachableIS.step _ (ReachableIS.ignite _ 0 0 1 (ReachableIS.init)))

/-- Cell `(0, 0)` is in bounds on the 1×1 grid. -/
theorem sim1_in_bounds (c : FireCell) (k : ℕ) (t : ℤ) (b : ℕ) :
    (sim1 c k t b).in_bounds 0 0 :=
  ⟨le_refl 0, by norm_num [sim1], le_refl 0, by norm_num [sim1]⟩

/-- `ignite(0, 0, 1.0)` on the 1×1 simulation forces the cell to `BURNING`
at intensity `max(1, 0.5) = 1`, stamping the current time and 500 K. -/
theorem ignite_sim1 (c : FireCell) (k : ℕ) (t : ℤ) (b : ℕ) :
    ((sim1 c k t b).ignite 0 0 1).2 =
      sim1 { c with
        state := CellState.burning
        intensity := 1
        ignition_time_us := t
        temperature_k := 500 } k t b := by
  simp only [FireSimulation.ignite]
  rw [if_pos (sim1_in_bounds c k t b)]
  simp only [sim1]
  rw [updCell_same]
  rw [show max (1:ℝ) FIRE_INTENSITY_IGNITION = 1 by
    rw [FIRE_INTENSITY_IGNITION]; exact max_eq_left (by norm_num)]
  rw [updCell_updCell]


/-- The suppression-age sweep at the end of `step` on the 1×1 grid bumps the
age of the single in-bounds cell and leaves every other index untouched. -/
theorem aging_1x1 (base : ℤ → ℤ → FireCell) (c : FireCell)
    (hage : 0 ≤ c.suppression_age_ticks) :
    (fun y x : ℤ =>
      if inBoundsP 1 1 x y ∧ 0 ≤ (updCell base 0 0 c y x).suppression_age_ticks then
        { updCell base 0 0 c y x with
          suppression_age_ticks := (updCell base 0 0 c y x).suppression_age_ticks + 1 }
      else updCell base 0 0 c y x) =
    updCell base 0 0 { c with suppression_age_ticks := c.suppression_age_ticks + 1 } := by
  funext y x
  by_cases hyx : y = 0 ∧ x = 0
  · obtain ⟨hy, hx⟩ := hyx
    subst hy
    subst hx
    rw [updCell_same, updCell_same]
    rw [if_pos (And.intro ⟨le_refl 0, by norm_num, le_refl 0, by norm_num⟩ hage)]
  · rw [updCell_other base 0 0 y x c hyx, updCell_other base 0 0 y x _ hyx]
    have hnc : ¬(inBoundsP 1 1 x y ∧ 0 ≤ (base y x).suppression_age_ticks) := by
      intro hcond
      obtain ⟨⟨h1, h2, h3, h4⟩, _⟩ := hcond
      exact hyx ⟨by omega, by omega⟩
    rw [if_neg hnc]

set_option maxHeartbeats 1000000 in
/-- `step()` on the 1×1 grid with a burning cell that neither runs out of
fuel nor decays below 0.001: decay, temperature, fuel drain, age bump. -/
theorem step_sim1_alive (c : FireCell) (k : ℕ) (t : ℤ) (b : ℕ)
    (hst : c.state = CellState.burning) (hi : 0 < c.intensity)
    (hage : 0 ≤ c.suppression_age_ticks)
    (halive : ¬(max 0 (c.fuel_density - c.intensity * INTENSITY_DECAY_FACTOR * (1/100)) ≤ 0
      ∨ c.intensity * INTENSITY_DECAY_FACTOR ≤ 1/1000)) :
    (sim1 c k t b).step.2 =
      sim1 { c with
        intensity := c.intensity * INTENSITY_DECAY_FACTOR
        temperature_k := 300 + c.intensity * INTENSITY_DECAY_FACTOR * 700
        fuel_density := max 0 (c.fuel_density - c.intensity * INTENSITY_DECAY_FACTOR * (1/100))
        suppression_age_ticks := c.suppression_age_ticks + 1 }
        (k + 1) (t + 10000) b := by
  simp only [FireSimulation.step, sim1]
  rw [show gridIndices 1 1 = [((0:ℤ), (0:ℤ))] from rfl]
  rw [List.foldl_cons, List.foldl_nil]
  simp only [sweepCell]
  rw [updCell_same]
  rw [if_pos (show c.is_burning from ⟨hst, hi⟩)]
  simp only [stepBurnCell]
  rw [if_neg halive]
  simp only [neighbors_1x1, scanNeighbors, List.foldl_nil, Bool.false_eq_true, if_false,
    updCell_updCell, Nat.add_zero, SIM_TICK_PERIOD_US]
  have hag := aging_1x1 (FireSimulation.init 1 1 10 zeroStream).cells
    ({ x := c.x, y := c.y, state := c.state,
       intensity := c.intensity * INTENSITY_DECAY_FACTOR,
       fuel_density := max 0 (c.fuel_density - c.intensity * INTENSITY_DECAY_FACTOR * (1/100)),
       temperature_k := 300 + c.intensity * INTENSITY_DECAY_FACTOR * 700,
       ignition_time_us := c.ignition_time_us,
       suppression_age_ticks := c.suppression_age_ticks }) hage
  rw [hag]


set_option maxHeartbeats 1000000 in
/-- `step()` on the 1×1 grid with a burning cell whose fuel (or intensity)
is exhausted after this tick: transition to `BURNED` at intensity 0. -/
theorem step_sim1_burnout (c : FireCell) (k : ℕ) (t : ℤ) (b : ℕ)
    (hst : c.state = CellState.burning) (hi : 0 < c.intensity)
    (hage : 0 ≤ c.suppression_age_ticks)
    (hcond : max 0 (c.fuel_density - c.intensity * INTENSITY_DECAY_FACTOR * (1/100)) ≤ 0
      ∨ c.intensity * INTENSITY_DECAY_FACTOR ≤ 1/1000) :
    (sim1 c k t b).step.2 =
      sim1 { c with
        state := CellState.burned
        intensity := 0
        temperature_k := 300 + c.intensity * INTENSITY_DECAY_FACTOR * 700
        fuel_density := max 0 (c.fuel_density - c.intensity * INTENSITY_DECAY_FACTOR * (1/100))
        suppression_age_ticks := c.suppression_age_ticks + 1 }
        (k + 1) (t + 10000) (b + 1) := by
  simp only [FireSimulation.step, sim1]
  rw [show gridIndices 1 1 = [((0:ℤ), (0:ℤ))] from rfl]
  rw [List.foldl_cons, List.foldl_nil]
  simp only [sweepCell]
  rw [updCell_same]
  rw [if_pos (show c.is_burning from ⟨hst, hi⟩)]
  simp only [stepBurnCell]
  rw [if_pos hcond]
  simp only [List.foldl_nil, eq_self_iff_true, if_true, updCell_updCell,
    Nat.zero_add, SIM_TICK_PERIOD_US]
  have hag := aging_1x1 (FireSimulation.init 1 1 10 zeroStream).cells
    ({ x := c.x, y := c.y, state := CellState.burned,
       intensity := 0,
       fuel_density := max 0 (c.fuel_density - c.intensity * INTENSITY_DECAY_FACTOR * (1/100)),
       temperature_k := 300 + c.intensity * INTENSITY_DECAY_FACTOR * 700,
       ignition_time_us := c.ignition_time_us,
       suppression_age_ticks := c.suppression_age_ticks }) hage
  rw [hag]


/-- Reading cell `(0, 0)` of the normal form. -/
theorem sim1_cells_00 (c : FireCell) (k : ℕ) (t : ℤ) (b : ℕ) :
    (sim1 c k t b).cells 0 0 = c := by
  simp [sim1, updCell]

/-- The freshly constructed 1×1 simulation in normal form. -/
theorem init_eq_sim1 :
    FireSimulation.init 1 1 10 zeroStream =
      sim1 { x := 0, y := 0, state := CellState.no_fire, intensity := 0,
             fuel_density := FUEL_DENSITY_FACTOR, temperature_k := 293,
             ignition_time_us := 0, suppression_age_ticks := 0 } 0 0 0 := by
  simp only [sim1, FireSimulation.init]
  congr 1
  funext y x
  unfold updCell
  by_cases h : y = 0 ∧ x = 0
  · rw [if_pos h]
    obtain ⟨hy, hx⟩ := h
    subst hy
    subst hx
    rfl
  · rw [if_neg h]

/-- Congruence for the 1×1-simulation normal form. -/
theorem sim1_congr (c1 c2 : FireCell) (k1 k2 : ℕ) (t1 t2 : ℤ) (b1 b2 : ℕ)
    (hc : c1 = c2) (hk : k1 = k2) (ht : t1 = t2) (hb : b1 = b2) :
    sim1 c1 k1 t1 b1 = sim1 c2 k2 t2 b2 := by
  rw [hc, hk, ht, hb]

set_option maxHeartbeats 1000000 in
/-- Closed form of the C2 run after `k ∈ [1, 105]` rounds of
`ignite(0,0,1.0); step()`: the cell burns at intensity 0.95 with fuel
`1 − k·0.0095`. -/
theorem traceC2_closed (k : ℕ) (hk1 : 1 ≤ k) (hk2 : k ≤ 105) :
    traceC2 k = sim1 (c2CellAlive k) k ((k : ℤ) * 10000) 0 := by
  induction k with
  | zero => omega
  | succ n ih =>
    have hn2 : n ≤ 104 := by omega
    by_cases hn : n = 0
    · subst hn
      show igniteStep (traceC2 0) = _
      rw [show traceC2 0 = FireSimulation.init 1 1 10 zeroStream from rfl]
      rw [init_eq_sim1]
      unfold igniteStep
      rw [ignite_sim1]
      rw [step_sim1_alive _ _ _ _ rfl (by norm_num) (by norm_num) ?hsideA]
      case hsideA =>
        push_neg
        constructor
        · rw [INTENSITY_DECAY_FACTOR, FUEL_DENSITY_FACTOR]
          rw [lt_max_iff]
          right
          norm_num
        · rw [INTENSITY_DECAY_FACTOR]
          norm_num
      refine sim1_congr _ _ _ _ _ _ _ _ ?_ rfl (by norm_num) rfl
      simp only [c2CellAlive, FireCell.mk.injEq, INTENSITY_DECAY_FACTOR,
        FUEL_DENSITY_FACTOR]
      norm_num
    · have hn1 : 1 ≤ n := Nat.one_le_iff_ne_zero.mpr hn
      have ihh := ih hn1 (by omega)
      show igniteStep (traceC2 n) = _
      rw [ihh]
      unfold igniteStep
      rw [ignite_sim1]
      rw [step_sim1_alive _ _ _ _ rfl (by norm_num) ?hageB ?hsideB]
      case hageB =>
        show (0:ℤ) ≤ (n:ℤ)
        exact_mod_cast Nat.zero_le n
      case hsideB =>
        push_neg
        constructor
        · rw [INTENSITY_DECAY_FACTOR]
          rw [lt_max_iff]
          right
          show (0:ℝ) < 1 - (n:ℝ) * (19/2000) - 1 * (19/20) * (1/100)
          have hcast : (n:ℝ) ≤ 104 := by exact_mod_cast hn2
          nlinarith
        · rw [INTENSITY_DECAY_FACTOR]
          norm_num
      refine sim1_congr _ _ _ _ _ _ _ _ ?_ rfl (by push_cast; ring) rfl
      simp only [c2CellAlive, FireCell.mk.injEq, INTENSITY_DECAY_FACTOR]
      refine ⟨trivial, trivial, trivial, by norm_num, ?_, by norm_num,
        by push_cast; ring, by push_cast; ring⟩
      rw [max_eq_right]
      · push_cast
        ring
      · have hcast : (n:ℝ) ≤ 104 := by exact_mod_cast hn2
        nlinarith


set_option maxHeartbeats 1000000 in
/-- Round 106 exhausts the fuel: the cell transitions to `BURNED` with
fuel 0 and intensity 0. -/
theorem traceC2_burnout : traceC2 106 = sim1 c2CellBurnedOut 106 1060000 1 := by
  show igniteStep (traceC2 105) = _
  rw [traceC2_closed 105 (by norm_num) (by norm_num)]
  unfold igniteStep
  rw [ignite_sim1]
  rw [step_sim1_burnout _ _ _ _ rfl (by norm_num) ?hage ?hcond]
  case hage =>
    show (0:ℤ) ≤ ((105:ℕ):ℤ)
    norm_num
  case hcond =>
    left
    simp only [c2CellAlive, INTENSITY_DECAY_FACTOR]
    rw [max_le_iff]
    constructor
    · norm_num
    · push_cast
      norm_num
  refine sim1_congr _ _ _ _ _ _ _ _ ?_ rfl (by norm_num) rfl
  simp only [c2CellAlive, c2CellBurnedOut, FireCell.mk.injEq, INTENSITY_DECAY_FACTOR]
  refine ⟨trivial, trivial, trivial, trivial, ?_, by norm_num, by norm_num, by norm_num⟩
  rw [max_eq_left]
  push_cast
  norm_num

/-- Overwriting the cells of the normal form with a point update at
`(0, 0)`. -/
theorem sim1_set_cells (c c2 : FireCell) (k : ℕ) (t : ℤ) (b : ℕ) :
    { sim1 c k t b with cells := updCell (sim1 c k t b).cells 0 0 c2 } = sim1 c2 k t b := by
  simp only [sim1, updCell_updCell]

set_option maxHeartbeats 1000000 in
/-- `suppress(0, 0, 0.5)` on the burned-out cell marks it `SUPPRESSED`
(300 K, suppression age 0) while its fuel and intensity stay 0. -/
theorem traceC2Final_eq :
    traceC2Final = sim1
      { x := 0, y := 0, state := CellState.suppressed, intensity := 0,
        fuel_density := 0, temperature_k := 300, ignition_time_us := 1050000,
        suppression_age_ticks := 0 } 106 1060000 1 := by
  unfold traceC2Final
  rw [traceC2_burnout]
  simp only [FireSimulation.suppress]
  rw [if_pos (sim1_in_bounds c2CellBurnedOut 106 1060000 1)]
  rw [sim1_cells_00]
  rw [if_pos (show max 0 (c2CellBurnedOut.intensity -
      c2CellBurnedOut.intensity * (1/2) * SUPPRESSION_EFFECTIVENESS) ≤ 0 by
    simp only [c2CellBurnedOut]
    norm_num [SUPPRESSION_EFFECTIVENESS])]
  rw [sim1_set_cells]
  refine sim1_congr _ _ _ _ _ _ _ _ ?_ rfl rfl rfl
  simp only [c2CellBurnedOut, FireCell.mk.injEq]
  norm_num [SUPPRESSION_EFFECTIVENESS]


/-- Every state of the C2 run is reachable by external commands. -/
theorem traceC2_reachable (k : ℕ) : Reachable 1 1 10 zeroStream (traceC2 k) := by
  induction k with
  | zero => exact Reachable.init
  | succ n ih =>
    show Reachable 1 1 10 zeroStream (((traceC2 n).ignite 0 0 1).2.step.2)
    exact Reachable.step _ (Reachable.ignite _ 0 0 1 (by norm_num) (by norm_num) ih)

/-- C2 counterexample: the final state of the concrete run is reachable by
an interleaving of `ignite`, `step` and `suppress` (with in-range
arguments), yet its cell has fuel 0 and intensity `0 < 0.001` while its
state is `SUPPRESSED`, not `BURNED` — refuting the claimed invariant. -/
theorem C2_counterexample :
    Reachable 1 1 10 zeroStream traceC2Final ∧
    (traceC2Final.cells 0 0).fuel_density = 0 ∧
    (traceC2Final.cells 0 0).intensity < 1/1000 ∧
    (traceC2Final.cells 0 0).state ≠ CellState.burned := by
  refine ⟨?_, ?_, ?_, ?_⟩
  · exact Reachable.suppress _ 0 0 (1/2) (by norm_num) (by norm_num) (traceC2_reachable 106)
  · rw [traceC2Final_eq, sim1_cells_00]
  · rw [traceC2Final_eq, sim1_cells_00]
    norm_num
  · rw [traceC2Final_eq, sim1_cells_00]
    intro hcontra
    exact absurd hcontra (by simp)

end AeroSim
